import Mathlib

/-!
# Verification of the numix adaptive Gauss quadrature engine

Shallow embedding of `src/integrate/quad.rs` and `src/common/functions.rs`.
`f64` values are idealised as exact rationals (`ℚ`); interval endpoints keep
the IEEE classification structure (finite / ±infinity / NaN) in `F64E`,
since the dispatcher in `Quad::run` branches on `is_finite` / `is_infinite`.
The mutable state threaded by `&mut` through the recursion (call counter,
process status, cumulative error estimate) becomes an explicit `QState`
record passed and returned functionally.
-/

namespace Numix

set_option maxHeartbeats 2000000

/-- Default absolute tolerance `DEFAULT_TOL = 1e-11`. -/
def DEFAULT_TOL : ℚ := 1e-11

/-- Default relative tolerance `DEFAULT_RTOL = 0.001`. -/
def DEFAULT_RTOL : ℚ := 0.001

/-- `f64::EPSILON = 2^(-52)`. -/
def EPSILON : ℚ := 1 / 2 ^ 52

/-- Machine-epsilon-derived tolerance floor `LIMIT_TOL = 4.0 * f64::EPSILON`. -/
def LIMIT_TOL : ℚ := 4 * EPSILON

/-- Default subinterval limit `DEFAULT_SUBINTERVAL_LIMIT = 10000`. -/
def DEFAULT_SUBINTERVAL_LIMIT : ℕ := 10000

/-- The 5 Gauss–Legendre weights `W` from `quad.rs`. -/
def W : Fin 5 → ℚ :=
  ![0.5688888888888889, 0.4786286704993665, 0.4786286704993665,
    0.2369268850561891, 0.2369268850561891]

/-- The 5 Gauss–Legendre abscissas `X` from `quad.rs`. -/
def X : Fin 5 → ℚ :=
  ![0.0, -0.5384693101056831, 0.5384693101056831,
    0.9061798459386639, -0.9061798459386639]

/-- `precision_equals` from `src/common/functions.rs`:
`(x1 - x2).abs() <= tol + rtol * x2.abs()`. -/
def precision_equals (x1 x2 tol rtol : ℚ) : Bool :=
  decide (|x1 - x2| ≤ tol + rtol * |x2|)

/-- The process-level status `QuadProcessError` from `quad.rs`. -/
inductive QuadProcessError where
  | None
  | SubintervalLimitExceededError
  | Divergence
deriving DecidableEq

/-- The result record `QuadCharacteristics` from `quad.rs`. -/
structure QuadCharacteristics where
  msg : String
  number_of_intervals : ℕ
  error_estimate : ℚ
  integral : ℚ
deriving DecidableEq

/-- The public error taxonomy `QuadError` from `quad.rs`. -/
inductive QuadError where
  | None
  | InvalidInput (message : String)
  | IntervalError
  | Divergence
  | UnacceptableTolearanceError (char : QuadCharacteristics)
deriving DecidableEq

/-- The state mutated by reference across the recursion tree of
`quad_finite`: the shared call counter (`iter`, aliasing
`quadchar.number_of_intervals`), the process status (`error_type`) and the
cumulative error estimate. -/
structure QState where
  iter : ℕ
  error : QuadProcessError
  error_estimate : ℚ
deriving DecidableEq

/-- An `f64` endpoint as classified by `is_finite` / `is_infinite`. -/
inductive F64E where
  | finite (x : ℚ)
  | posInf
  | negInf
  | nan
deriving DecidableEq

/-- Rust `f64::is_finite`. -/
def F64E.is_finite : F64E → Bool
  | .finite _ => true
  | _ => false

/-- Rust `f64::is_infinite` (true only for ±∞, false for NaN). -/
def F64E.is_infinite : F64E → Bool
  | .posInf => true
  | .negInf => true
  | _ => false

/-- The rational value of a finite endpoint (junk on non-finite ones;
the dispatcher only extracts it from finite endpoints). -/
def F64E.toRat : F64E → ℚ
  | .finite x => x
  | _ => 0

/-- `Quad::quad_finite`, with the `&mut`-threaded state (`iter`,
`error_type`, `error_estimate`) made an explicit `QState`, and recursion
made structural on a `fuel` argument. `fuel` is an artifact of the
embedding: `quadFiniteF_stable` below proves the result does not depend on
`fuel` once `limit_iter < fuel + st.iter`, which always holds for the
fuel `limit_iter + 1` used by `quad_finite` (the Rust recursion terminates
because a call only recurses while the freshly incremented shared counter
is still below `limit_iter`). -/
def quadFiniteF (fuel : ℕ) (f : ℚ → ℚ) (approx a b tolerance rtolerance : ℚ)
    (limit_iter : ℕ) (st : QState) : ℚ × QState :=
  match fuel with
  | 0 => (0, st)
  | fuel + 1 =>
    let st1 : QState := ⟨st.iter + 1, st.error, st.error_estimate⟩
    let midpoint : ℚ := a + (b - a) / 2
    let center : ℚ := (midpoint - a) / 2
    let left_area : ℚ :=
      ((List.finRange 5).foldl
        (fun acc i => acc + f ((X i + 1) * center + a) * W i) 0) * center
    let right_area : ℚ :=
      ((List.finRange 5).foldl
        (fun acc i => acc + f ((X i + 1) * center + midpoint) * W i) 0) * center
    if st1.error = QuadProcessError.None then
      if limit_iter ≤ st1.iter then
        (left_area + right_area,
          ⟨st1.iter, QuadProcessError.SubintervalLimitExceededError,
            st1.error_estimate⟩)
      else if |approx - (left_area + right_area)| ≤ tolerance then
        (left_area + right_area,
          ⟨st1.iter, st1.error,
            st1.error_estimate + |approx - (left_area + right_area)|⟩)
      else if |approx - (left_area + right_area)| < 1 then
        (left_area + right_area,
          ⟨st1.iter, QuadProcessError.Divergence, st1.error_estimate⟩)
      else
        let pL := quadFiniteF fuel f left_area a midpoint (tolerance / 2)
          rtolerance limit_iter st1
        let pR := quadFiniteF fuel f right_area midpoint b (tolerance / 2)
          rtolerance limit_iter pL.2
        (pL.1 + pR.1, pR.2)
    else (left_area + right_area, st1)

/-- `Quad::quad_finite` (returned value together with the final state of
the `&mut` parameters). -/
def quad_finite (f : ℚ → ℚ) (approx a b tolerance rtolerance : ℚ)
    (limit_iter : ℕ) (st : QState) : ℚ × QState :=
  quadFiniteF (limit_iter + 1) f approx a b tolerance rtolerance limit_iter st

/-- The Gauss–Legendre 5-point half-interval estimate, as the accumulation
loop of `quad_finite` computes it: the sum of
`f((X[i]+1)*center + offset) * W[i]` scaled by `center`. -/
def gaussFive (f : ℚ → ℚ) (offset center : ℚ) : ℚ :=
  (∑ i : Fin 5, f ((X i + 1) * center + offset) * W i) * center

/-- Counts the `quad_finite` invocations a `quadFiniteF` run performs:
`1` for the call itself plus, in the recursion branch, the counts of the
two half-interval subtrees (the right subtree starting from the state the
left one left behind).  This is the instrument used to state that the
shared counter advances by exactly one per invocation. -/
def quadCallsF (fuel : ℕ) (f : ℚ → ℚ) (approx a b tolerance rtolerance : ℚ)
    (limit_iter : ℕ) (st : QState) : ℕ :=
  match fuel with
  | 0 => 0
  | fuel + 1 =>
    let st1 : QState := ⟨st.iter + 1, st.error, st.error_estimate⟩
    let midpoint : ℚ := a + (b - a) / 2
    let center : ℚ := (midpoint - a) / 2
    let left_area : ℚ :=
      ((List.finRange 5).foldl
        (fun acc i => acc + f ((X i + 1) * center + a) * W i) 0) * center
    let right_area : ℚ :=
      ((List.finRange 5).foldl
        (fun acc i => acc + f ((X i + 1) * center + midpoint) * W i) 0) * center
    if st1.error = QuadProcessError.None then
      if limit_iter ≤ st1.iter then 1
      else if |approx - (left_area + right_area)| ≤ tolerance then 1
      else if |approx - (left_area + right_area)| < 1 then 1
      else
        1 + quadCallsF fuel f left_area a midpoint (tolerance / 2) rtolerance
            limit_iter st1 +
          quadCallsF fuel f right_area midpoint b (tolerance / 2) rtolerance
            limit_iter
            (quadFiniteF fuel f left_area a midpoint (tolerance / 2) rtolerance
              limit_iter st1).2
    else 1

/-- The number of `quad_finite` invocations performed by `quad_finite`. -/
def quadCalls (f : ℚ → ℚ) (approx a b tolerance rtolerance : ℚ)
    (limit_iter : ℕ) (st : QState) : ℕ :=
  quadCallsF (limit_iter + 1) f approx a b tolerance rtolerance limit_iter st

/-- `Quad::quad_infinite`: integrates a tail with one infinite endpoint by
the reciprocal substitution `u = 1/x`; `inf` is the direction of infinity
(`1` or `-1`).  (In ℚ, `1/0 = 0`; the Rust code never evaluates the
transformed integrand at a Gauss node equal to `0`, the substitution being
arranged precisely to avoid the singular point.) -/
def quad_infinite (f : ℚ → ℚ) (a : ℚ) (inf : ℤ) (tolerance rtolerance : ℚ)
    (limit_iter : ℕ) (st : QState) : ℚ × QState :=
  let adjusted_function : ℚ → ℚ := fun x => f (1 / x) / x ^ 2
  if inf = 1 then
    if a < 1 then
      let p1 := quad_finite f 0 a 1 tolerance rtolerance limit_iter st
      let p2 := quad_finite adjusted_function 0 1 0 tolerance rtolerance
        limit_iter p1.2
      (p1.1 - p2.1, p2.2)
    else
      quad_finite adjusted_function 0 0 (1 / a) tolerance rtolerance
        limit_iter st
  else
    if -1 < a then
      let p1 := quad_finite f 0 (-1) a tolerance rtolerance limit_iter st
      let p2 := quad_finite adjusted_function 0 (-1) 0 tolerance rtolerance
        limit_iter p1.2
      (p1.1 + p2.1, p2.2)
    else
      quad_finite adjusted_function 0 0 (1 / a) tolerance rtolerance
        limit_iter st

/-- The configuration struct `Quad` from `quad.rs`. -/
structure Quad where
  f : ℚ → ℚ
  a : F64E
  b : F64E
  limit_subintevals : ℕ
  tolerance : ℚ
  relative_tolerance : ℚ
  error_type : QuadError

/-- `Quad::initialize`. -/
def Quad.initialize (function : ℚ → ℚ) (a b : F64E) : Quad :=
  ⟨function, a, b, DEFAULT_SUBINTERVAL_LIMIT, DEFAULT_TOL, DEFAULT_RTOL,
    QuadError.None⟩

/-- `Quad::change_tolerance`: records (never raises) an invalid-input
error when the tolerance is below `LIMIT_TOL`, and stores the value in
either case. -/
def Quad.change_tolerance (q : Quad) (tol : ℚ) : Quad :=
  let q' := if tol < LIMIT_TOL then
    { q with error_type := QuadError.InvalidInput "Invalid Tolerance\n" }
  else q
  { q' with tolerance := tol }

/-- `Quad::change_relative_tolerance`. -/
def Quad.change_relative_tolerance (q : Quad) (rtol : ℚ) : Quad :=
  let q' := if rtol < LIMIT_TOL then
    { q with error_type :=
        QuadError.InvalidInput "Invalid Relative Tolerance\n" }
  else q
  { q' with relative_tolerance := rtol }

/-- The interval-classification dispatch of `Quad::run` (the four-branch
`if` chain), started — exactly as `run` does — on a state whose counter
is the initial `quadchar.number_of_intervals = 1`, with no flag set and a
zero error estimate.  Returns `none` when the final `else` branch
(`Err(QuadError::IntervalError)`) is taken. -/
def Quad.dispatch (q : Quad) : Option (ℚ × QState) :=
  let st0 : QState := ⟨1, QuadProcessError.None, 0⟩
  if q.a.is_finite && q.b.is_finite then
    some (quad_finite q.f 0 q.a.toRat q.b.toRat q.tolerance
      q.relative_tolerance q.limit_subintevals st0)
  else if q.a.is_finite && q.b.is_infinite then
    some (quad_infinite q.f q.a.toRat 1 q.tolerance
      q.relative_tolerance q.limit_subintevals st0)
  else if q.a.is_infinite && q.b.is_finite then
    some (quad_infinite q.f q.b.toRat (-1) q.tolerance
      q.relative_tolerance q.limit_subintevals st0)
  else if q.a.is_infinite && q.b.is_infinite then
    let p1 := quad_infinite q.f 0 (-1) q.tolerance
      q.relative_tolerance q.limit_subintevals st0
    let p2 := quad_infinite q.f 0 1 q.tolerance
      q.relative_tolerance q.limit_subintevals p1.2
    some (p1.1 + p2.1, p2.2)
  else
    none

/-- `Quad::run`: surface any recorded configuration error first, then
dispatch on the interval classification, then translate the process status
into the public result. -/
def Quad.run (q : Quad) : Except QuadError QuadCharacteristics :=
  match q.error_type with
  | QuadError.None =>
    match q.dispatch with
    | some (solution, st) =>
      match st.error with
      | QuadProcessError.SubintervalLimitExceededError =>
        Except.error (QuadError.UnacceptableTolearanceError
          ⟨"Unacceptable Tolerance due to meating subintervals number limit\n",
            st.iter, st.error_estimate, solution⟩)
      | _ =>
        Except.ok ⟨"Completed Integration", st.iter, st.error_estimate,
          solution⟩
    | none => Except.error QuadError.IntervalError
  | e => Except.error e


theorem foldl_finRange_five (g : Fin 5 → ℚ) :
    (List.finRange 5).foldl (fun acc i => acc + g i) 0 = ∑ i : Fin 5, g i := by
  rw [Fin.sum_univ_five]
  show 0 + g 0 + g 1 + g 2 + g 3 + g 4 = _
  ring

theorem gaussFive_foldl (f : ℚ → ℚ) (offset center : ℚ) :
    ((List.finRange 5).foldl
      (fun acc i => acc + f ((X i + 1) * center + offset) * W i) 0) * center =
    gaussFive f offset center := by
  rw [gaussFive, foldl_finRange_five]

/-- Unfolding of `quadFiniteF` at positive fuel, with the accumulation
loops expressed through `gaussFive`. -/
theorem quadFiniteF_succ (fuel : ℕ) (f : ℚ → ℚ)
    (approx a b tolerance rtolerance : ℚ) (limit_iter : ℕ) (st : QState) :
    quadFiniteF (fuel + 1) f approx a b tolerance rtolerance limit_iter st =
      (let midpoint : ℚ := a + (b - a) / 2
      let center : ℚ := (midpoint - a) / 2
      let left_area : ℚ := gaussFive f a center
      let right_area : ℚ := gaussFive f midpoint center
      if st.error = QuadProcessError.None then
        if limit_iter ≤ st.iter + 1 then
          (left_area + right_area,
            ⟨st.iter + 1, QuadProcessError.SubintervalLimitExceededError,
              st.error_estimate⟩)
        else if |approx - (left_area + right_area)| ≤ tolerance then
          (left_area + right_area,
            ⟨st.iter + 1, st.error,
              st.error_estimate + |approx - (left_area + right_area)|⟩)
        else if |approx - (left_area + right_area)| < 1 then
          (left_area + right_area,
            ⟨st.iter + 1, QuadProcessError.Divergence, st.error_estimate⟩)
        else
          let pL := quadFiniteF fuel f left_area a midpoint (tolerance / 2)
            rtolerance limit_iter ⟨st.iter + 1, st.error, st.error_estimate⟩
          let pR := quadFiniteF fuel f right_area midpoint b (tolerance / 2)
            rtolerance limit_iter pL.2
          (pL.1 + pR.1, pR.2)
      else (left_area + right_area, ⟨st.iter + 1, st.error, st.error_estimate⟩)) := by
  show (let st1 : QState := ⟨st.iter + 1, st.error, st.error_estimate⟩
    let midpoint : ℚ := a + (b - a) / 2
    let center : ℚ := (midpoint - a) / 2
    let left_area : ℚ :=
      ((List.finRange 5).foldl
        (fun acc i => acc + f ((X i + 1) * center + a) * W i) 0) * center
    let right_area : ℚ :=
      ((List.finRange 5).foldl
        (fun acc i => acc + f ((X i + 1) * center + midpoint) * W i) 0) * center
    if st1.error = QuadProcessError.None then
      if limit_iter ≤ st1.iter then
        (left_area + right_area,
          ⟨st1.iter, QuadProcessError.SubintervalLimitExceededError,
            st1.error_estimate⟩)
      else if |approx - (left_area + right_area)| ≤ tolerance then
        (left_area + right_area,
          ⟨st1.iter, st1.error,
            st1.error_estimate + |approx - (left_area + right_area)|⟩)
      else if |approx - (left_area + right_area)| < 1 then
        (left_area + right_area,
          ⟨st1.iter, QuadProcessError.Divergence, st1.error_estimate⟩)
      else
        let pL := quadFiniteF fuel f left_area a midpoint (tolerance / 2)
          rtolerance limit_iter st1
        let pR := quadFiniteF fuel f right_area midpoint b (tolerance / 2)
          rtolerance limit_iter pL.2
        (pL.1 + pR.1, pR.2)
    else (left_area + right_area, st1)) = _
  dsimp only
  rw [gaussFive_foldl, gaussFive_foldl]

/-- The shared call counter strictly increases across any `quadFiniteF`
call, provided the fuel is sufficient. -/
theorem quadFiniteF_iter_lt (f : ℚ → ℚ) (rtolerance : ℚ) (limit_iter : ℕ) :
    ∀ (fuel : ℕ) (approx a b tolerance : ℚ) (st : QState),
      1 ≤ fuel → limit_iter < fuel + st.iter →
      st.iter <
        (quadFiniteF fuel f approx a b tolerance rtolerance limit_iter st).2.iter := by
  intro fuel
  induction fuel with
  | zero => intro approx a b tolerance st hf hs; omega
  | succ n ihn =>
    intro approx a b tolerance st hf hs
    rw [quadFiniteF_succ]
    dsimp only
    by_cases h1 : st.error = QuadProcessError.None
    · rw [if_pos h1]
      by_cases h2 : limit_iter ≤ st.iter + 1
      · rw [if_pos h2]
        exact Nat.lt_succ_self _
      · rw [if_neg h2]
        by_cases h3 : |approx - (gaussFive f a ((a + (b - a) / 2 - a) / 2) +
            gaussFive f (a + (b - a) / 2) ((a + (b - a) / 2 - a) / 2))| ≤ tolerance
        · rw [if_pos h3]
          exact Nat.lt_succ_self _
        · rw [if_neg h3]
          by_cases h4 : |approx - (gaussFive f a ((a + (b - a) / 2 - a) / 2) +
              gaussFive f (a + (b - a) / 2) ((a + (b - a) / 2 - a) / 2))| < 1
          · rw [if_pos h4]
            exact Nat.lt_succ_self _
          · rw [if_neg h4]
            dsimp only
            have hL : st.iter + 1 <
                (quadFiniteF n f (gaussFive f a ((a + (b - a) / 2 - a) / 2)) a
                  (a + (b - a) / 2) (tolerance / 2) rtolerance limit_iter
                  ⟨st.iter + 1, st.error, st.error_estimate⟩).2.iter :=
              ihn (gaussFive f a ((a + (b - a) / 2 - a) / 2)) a
                (a + (b - a) / 2) (tolerance / 2)
                ⟨st.iter + 1, st.error, st.error_estimate⟩ (by omega)
                (show limit_iter < n + (st.iter + 1) by omega)
            have hR :
                (quadFiniteF n f (gaussFive f a ((a + (b - a) / 2 - a) / 2)) a
                  (a + (b - a) / 2) (tolerance / 2) rtolerance limit_iter
                  ⟨st.iter + 1, st.error, st.error_estimate⟩).2.iter <
                (quadFiniteF n f
                  (gaussFive f (a + (b - a) / 2) ((a + (b - a) / 2 - a) / 2))
                  (a + (b - a) / 2) b (tolerance / 2) rtolerance limit_iter
                  (quadFiniteF n f (gaussFive f a ((a + (b - a) / 2 - a) / 2)) a
                    (a + (b - a) / 2) (tolerance / 2) rtolerance limit_iter
                    ⟨st.iter + 1, st.error, st.error_estimate⟩).2).2.iter :=
              ihn (gaussFive f (a + (b - a) / 2) ((a + (b - a) / 2 - a) / 2))
                (a + (b - a) / 2) b (tolerance / 2)
                (quadFiniteF n f (gaussFive f a ((a + (b - a) / 2 - a) / 2)) a
                  (a + (b - a) / 2) (tolerance / 2) rtolerance limit_iter
                  ⟨st.iter + 1, st.error, st.error_estimate⟩).2
                (by omega) (by omega)
            omega
    · rw [if_neg h1]
      exact Nat.lt_succ_self _

/-- The result of `quadFiniteF` does not depend on the fuel, once the fuel
dominates the distance from the current counter to the subinterval limit.
This makes `quad_finite` (fuel `limit_iter + 1`) the function computed by
the Rust recursion. -/
theorem quadFiniteF_stable (f : ℚ → ℚ) (rtolerance : ℚ) (limit_iter : ℕ) :
    ∀ (fuel : ℕ) (approx a b tolerance : ℚ) (st : QState),
      1 ≤ fuel → limit_iter < fuel + st.iter →
      ∀ fuel₂ : ℕ, 1 ≤ fuel₂ → limit_iter < fuel₂ + st.iter →
        quadFiniteF fuel₂ f approx a b tolerance rtolerance limit_iter st =
        quadFiniteF fuel f approx a b tolerance rtolerance limit_iter st := by
  intro fuel
  induction fuel with
  | zero => intro approx a b tolerance st hf hs; omega
  | succ n ihn =>
    intro approx a b tolerance st hf hs fuel₂ hf2 hs2
    obtain ⟨m, rfl⟩ : ∃ m, fuel₂ = m + 1 := ⟨fuel₂ - 1, by omega⟩
    rw [quadFiniteF_succ, quadFiniteF_succ]
    dsimp only
    by_cases h1 : st.error = QuadProcessError.None
    · rw [if_pos h1, if_pos h1]
      by_cases h2 : limit_iter ≤ st.iter + 1
      · rw [if_pos h2, if_pos h2]
      · rw [if_neg h2, if_neg h2]
        by_cases h3 : |approx - (gaussFive f a ((a + (b - a) / 2 - a) / 2) +
            gaussFive f (a + (b - a) / 2) ((a + (b - a) / 2 - a) / 2))| ≤ tolerance
        · rw [if_pos h3, if_pos h3]
        · rw [if_neg h3, if_neg h3]
          by_cases h4 : |approx - (gaussFive f a ((a + (b - a) / 2 - a) / 2) +
              gaussFive f (a + (b - a) / 2) ((a + (b - a) / 2 - a) / 2))| < 1
          · rw [if_pos h4, if_pos h4]
          · rw [if_neg h4, if_neg h4]
            have hLeq :
                quadFiniteF m f (gaussFive f a ((a + (b - a) / 2 - a) / 2)) a
                  (a + (b - a) / 2) (tolerance / 2) rtolerance limit_iter
                  ⟨st.iter + 1, st.error, st.error_estimate⟩ =
                quadFiniteF n f (gaussFive f a ((a + (b - a) / 2 - a) / 2)) a
                  (a + (b - a) / 2) (tolerance / 2) rtolerance limit_iter
                  ⟨st.iter + 1, st.error, st.error_estimate⟩ :=
              ihn (gaussFive f a ((a + (b - a) / 2 - a) / 2)) a
                (a + (b - a) / 2) (tolerance / 2)
                ⟨st.iter + 1, st.error, st.error_estimate⟩ (by omega)
                (show limit_iter < n + (st.iter + 1) by omega) m (by omega)
                (show limit_iter < m + (st.iter + 1) by omega)
            rw [hLeq]
            have hLlt : st.iter + 1 <
                (quadFiniteF n f (gaussFive f a ((a + (b - a) / 2 - a) / 2)) a
                  (a + (b - a) / 2) (tolerance / 2) rtolerance limit_iter
                  ⟨st.iter + 1, st.error, st.error_estimate⟩).2.iter :=
              quadFiniteF_iter_lt f rtolerance limit_iter n
                (gaussFive f a ((a + (b - a) / 2 - a) / 2)) a
                (a + (b - a) / 2) (tolerance / 2)
                ⟨st.iter + 1, st.error, st.error_estimate⟩ (by omega)
                (show limit_iter < n + (st.iter + 1) by omega)
            have hReq :
                quadFiniteF m f
                  (gaussFive f (a + (b - a) / 2) ((a + (b - a) / 2 - a) / 2))
                  (a + (b - a) / 2) b (tolerance / 2) rtolerance limit_iter
                  (quadFiniteF n f (gaussFive f a ((a + (b - a) / 2 - a) / 2)) a
                    (a + (b - a) / 2) (tolerance / 2) rtolerance limit_iter
                    ⟨st.iter + 1, st.error, st.error_estimate⟩).2 =
                quadFiniteF n f
                  (gaussFive f (a + (b - a) / 2) ((a + (b - a) / 2 - a) / 2))
                  (a + (b - a) / 2) b (tolerance / 2) rtolerance limit_iter
                  (quadFiniteF n f (gaussFive f a ((a + (b - a) / 2 - a) / 2)) a
                    (a + (b - a) / 2) (tolerance / 2) rtolerance limit_iter
                    ⟨st.iter + 1, st.error, st.error_estimate⟩).2 :=
              ihn (gaussFive f (a + (b - a) / 2) ((a + (b - a) / 2 - a) / 2))
                (a + (b - a) / 2) b (tolerance / 2)
                (quadFiniteF n f (gaussFive f a ((a + (b - a) / 2 - a) / 2)) a
                  (a + (b - a) / 2) (tolerance / 2) rtolerance limit_iter
                  ⟨st.iter + 1, st.error, st.error_estimate⟩).2 (by omega) (by omega) m (by omega) (by omega)
            rw [hReq]
    · rw [if_neg h1, if_neg h1]


/-- `quad_finite`, short-circuit branch: a status flag is already set when
the call starts.  The counter is still incremented and the two half-area
estimates are still computed; the sum is returned with the state otherwise
untouched. -/
theorem quad_finite_flagged (f : ℚ → ℚ) (approx a b tolerance rtolerance : ℚ)
    (limit_iter : ℕ) (st : QState) (h : ¬ st.error = QuadProcessError.None) :
    quad_finite f approx a b tolerance rtolerance limit_iter st =
      (gaussFive f a ((a + (b - a) / 2 - a) / 2) +
        gaussFive f (a + (b - a) / 2) ((a + (b - a) / 2 - a) / 2),
        ⟨st.iter + 1, st.error, st.error_estimate⟩) := by
  rw [quad_finite, quadFiniteF_succ]
  dsimp only
  rw [if_neg h]

/-- `quad_finite`, limit branch: the freshly incremented counter has
reached the configured limit. -/
theorem quad_finite_limit (f : ℚ → ℚ) (approx a b tolerance rtolerance : ℚ)
    (limit_iter : ℕ) (st : QState) (h : st.error = QuadProcessError.None)
    (h2 : limit_iter ≤ st.iter + 1) :
    quad_finite f approx a b tolerance rtolerance limit_iter st =
      (gaussFive f a ((a + (b - a) / 2 - a) / 2) +
        gaussFive f (a + (b - a) / 2) ((a + (b - a) / 2 - a) / 2),
        ⟨st.iter + 1, QuadProcessError.SubintervalLimitExceededError,
          st.error_estimate⟩) := by
  rw [quad_finite, quadFiniteF_succ]
  dsimp only
  rw [if_pos h, if_pos h2]

/-- `quad_finite`, convergence branch: the coarse-vs-refined gap is within
the tolerance carried into this call. -/
theorem quad_finite_conv (f : ℚ → ℚ) (approx a b tolerance rtolerance : ℚ)
    (limit_iter : ℕ) (st : QState) (h : st.error = QuadProcessError.None)
    (h2 : ¬ limit_iter ≤ st.iter + 1)
    (h3 : |approx - (gaussFive f a ((a + (b - a) / 2 - a) / 2) +
      gaussFive f (a + (b - a) / 2) ((a + (b - a) / 2 - a) / 2))| ≤ tolerance) :
    quad_finite f approx a b tolerance rtolerance limit_iter st =
      (gaussFive f a ((a + (b - a) / 2 - a) / 2) +
        gaussFive f (a + (b - a) / 2) ((a + (b - a) / 2 - a) / 2),
        ⟨st.iter + 1, st.error,
          st.error_estimate +
            |approx - (gaussFive f a ((a + (b - a) / 2 - a) / 2) +
              gaussFive f (a + (b - a) / 2) ((a + (b - a) / 2 - a) / 2))|⟩) := by
  rw [quad_finite, quadFiniteF_succ]
  dsimp only
  rw [if_pos h, if_neg h2, if_pos h3]

/-- `quad_finite`, divergence branch: the gap exceeds the tolerance but is
below the absolute constant `1.0`. -/
theorem quad_finite_divergence (f : ℚ → ℚ) (approx a b tolerance rtolerance : ℚ)
    (limit_iter : ℕ) (st : QState) (h : st.error = QuadProcessError.None)
    (h2 : ¬ limit_iter ≤ st.iter + 1)
    (h3 : ¬ |approx - (gaussFive f a ((a + (b - a) / 2 - a) / 2) +
      gaussFive f (a + (b - a) / 2) ((a + (b - a) / 2 - a) / 2))| ≤ tolerance)
    (h4 : |approx - (gaussFive f a ((a + (b - a) / 2 - a) / 2) +
      gaussFive f (a + (b - a) / 2) ((a + (b - a) / 2 - a) / 2))| < 1) :
    quad_finite f approx a b tolerance rtolerance limit_iter st =
      (gaussFive f a ((a + (b - a) / 2 - a) / 2) +
        gaussFive f (a + (b - a) / 2) ((a + (b - a) / 2 - a) / 2),
        ⟨st.iter + 1, QuadProcessError.Divergence, st.error_estimate⟩) := by
  rw [quad_finite, quadFiniteF_succ]
  dsimp only
  rw [if_pos h, if_neg h2, if_neg h3, if_pos h4]

/-- `quad_finite`, recursion branch: both halves are integrated with the
tolerance halved, threading the state left-to-right. -/
theorem quad_finite_recurse (f : ℚ → ℚ) (approx a b tolerance rtolerance : ℚ)
    (limit_iter : ℕ) (st : QState) (h : st.error = QuadProcessError.None)
    (h2 : ¬ limit_iter ≤ st.iter + 1)
    (h3 : ¬ |approx - (gaussFive f a ((a + (b - a) / 2 - a) / 2) +
      gaussFive f (a + (b - a) / 2) ((a + (b - a) / 2 - a) / 2))| ≤ tolerance)
    (h4 : ¬ |approx - (gaussFive f a ((a + (b - a) / 2 - a) / 2) +
      gaussFive f (a + (b - a) / 2) ((a + (b - a) / 2 - a) / 2))| < 1) :
    quad_finite f approx a b tolerance rtolerance limit_iter st =
      (let pL := quad_finite f (gaussFive f a ((a + (b - a) / 2 - a) / 2)) a
        (a + (b - a) / 2) (tolerance / 2) rtolerance limit_iter
        ⟨st.iter + 1, st.error, st.error_estimate⟩
      let pR := quad_finite f
        (gaussFive f (a + (b - a) / 2) ((a + (b - a) / 2 - a) / 2))
        (a + (b - a) / 2) b (tolerance / 2) rtolerance limit_iter pL.2
      (pL.1 + pR.1, pR.2)) := by
  rw [quad_finite, quadFiniteF_succ]
  dsimp only
  rw [if_pos h, if_neg h2, if_neg h3, if_neg h4]
  have hLeq :
      quadFiniteF limit_iter f (gaussFive f a ((a + (b - a) / 2 - a) / 2)) a
        (a + (b - a) / 2) (tolerance / 2) rtolerance limit_iter
        ⟨st.iter + 1, st.error, st.error_estimate⟩ =
      quad_finite f (gaussFive f a ((a + (b - a) / 2 - a) / 2)) a
        (a + (b - a) / 2) (tolerance / 2) rtolerance limit_iter
        ⟨st.iter + 1, st.error, st.error_estimate⟩ :=
    quadFiniteF_stable f rtolerance limit_iter (limit_iter + 1)
      (gaussFive f a ((a + (b - a) / 2 - a) / 2)) a
      (a + (b - a) / 2) (tolerance / 2)
      ⟨st.iter + 1, st.error, st.error_estimate⟩ (by omega)
      (show limit_iter < limit_iter + 1 + (st.iter + 1) by omega)
      limit_iter (by omega)
      (show limit_iter < limit_iter + (st.iter + 1) by omega)
  rw [hLeq]
  have hReq :
      quadFiniteF limit_iter f
        (gaussFive f (a + (b - a) / 2) ((a + (b - a) / 2 - a) / 2))
        (a + (b - a) / 2) b (tolerance / 2) rtolerance limit_iter
        (quad_finite f (gaussFive f a ((a + (b - a) / 2 - a) / 2)) a
          (a + (b - a) / 2) (tolerance / 2) rtolerance limit_iter
          ⟨st.iter + 1, st.error, st.error_estimate⟩).2 =
      quad_finite f (gaussFive f (a + (b - a) / 2) ((a + (b - a) / 2 - a) / 2))
        (a + (b - a) / 2) b (tolerance / 2) rtolerance limit_iter
        (quad_finite f (gaussFive f a ((a + (b - a) / 2 - a) / 2)) a
          (a + (b - a) / 2) (tolerance / 2) rtolerance limit_iter
          ⟨st.iter + 1, st.error, st.error_estimate⟩).2 := by
    have hlt : st.iter + 1 <
        (quad_finite f (gaussFive f a ((a + (b - a) / 2 - a) / 2)) a
          (a + (b - a) / 2) (tolerance / 2) rtolerance limit_iter
          ⟨st.iter + 1, st.error, st.error_estimate⟩).2.iter :=
      quadFiniteF_iter_lt f rtolerance limit_iter (limit_iter + 1)
        (gaussFive f a ((a + (b - a) / 2 - a) / 2)) a
        (a + (b - a) / 2) (tolerance / 2)
        ⟨st.iter + 1, st.error, st.error_estimate⟩ (by omega)
        (show limit_iter < limit_iter + 1 + (st.iter + 1) by omega)
    exact quadFiniteF_stable f rtolerance limit_iter (limit_iter + 1)
      (gaussFive f (a + (b - a) / 2) ((a + (b - a) / 2 - a) / 2))
      (a + (b - a) / 2) b (tolerance / 2)
      (quad_finite f (gaussFive f a ((a + (b - a) / 2 - a) / 2)) a
        (a + (b - a) / 2) (tolerance / 2) rtolerance limit_iter
        ⟨st.iter + 1, st.error, st.error_estimate⟩).2 (by omega) (by omega)
      limit_iter (by omega) (by omega)
  rw [hReq]

/-- The shared call counter strictly increases across `quad_finite`. -/
theorem quad_finite_iter_lt (f : ℚ → ℚ) (approx a b tolerance rtolerance : ℚ)
    (limit_iter : ℕ) (st : QState) :
    st.iter <
      (quad_finite f approx a b tolerance rtolerance limit_iter st).2.iter :=
  quadFiniteF_iter_lt f rtolerance limit_iter (limit_iter + 1)
    approx a b tolerance st (by omega) (by omega)

theorem W_0 : W 0 = 0.5688888888888889 := rfl

theorem W_1 : W 1 = 0.4786286704993665 := rfl

theorem W_2 : W 2 = 0.4786286704993665 := rfl

theorem W_3 : W 3 = 0.2369268850561891 := rfl

theorem W_4 : W 4 = 0.2369268850561891 := rfl

/-- On a constant integrand the 5-point rule returns the constant times
the (inexact, floating-point) weight sum `2.0000000000000001` times the
half-interval scale. -/
theorem gaussFive_const (c offset center : ℚ) :
    gaussFive (fun _ => c) offset center =
      c * (20000000000000001 / 10000000000000000) * center := by
  simp only [gaussFive, Fin.sum_univ_five, W_0, W_1, W_2, W_3, W_4]
  norm_num
  left
  ring_nf

/-- A degenerate (zero-`center`) rule application returns `0`. -/
theorem gaussFive_center_zero (f : ℚ → ℚ) (offset : ℚ) :
    gaussFive f offset 0 = 0 := by
  simp [gaussFive]

/-- The rule returns `0` on an everywhere-zero integrand. -/
theorem gaussFive_eq_zero (f : ℚ → ℚ) (h : ∀ x, f x = 0) (offset center : ℚ) :
    gaussFive f offset center = 0 := by
  simp [gaussFive, h]

theorem F64E.is_finite_eq_false (x : F64E) (h : x.is_infinite = true) :
    x.is_finite = false := by
  cases x <;> simp_all [F64E.is_finite, F64E.is_infinite]

/-- If a configuration error was recorded, `run` surfaces it before any
integration work. -/
theorem Quad.run_invalid (q : Quad) (message : String)
    (h : q.error_type = QuadError.InvalidInput message) :
    q.run = Except.error (QuadError.InvalidInput message) := by
  rw [Quad.run, h]

/-- Once the dispatch result is known, `run` only translates the final
process status; in particular it can never produce the interval error. -/
theorem Quad.run_ne_interval (q : Quad) (p : ℚ × QState)
    (h0 : q.error_type = QuadError.None) (hd : q.dispatch = some p) :
    q.run ≠ Except.error QuadError.IntervalError := by
  rw [Quad.run, h0, hd]
  rcases p with ⟨sol, st⟩
  rcases st with ⟨i, e, ee⟩
  rcases e <;> simp



/-- `quad_finite` receives its `rtolerance` parameter but never reads it:
the fueled evaluator is literally independent of it. -/
theorem quadFiniteF_rtol (f : ℚ → ℚ) (limit_iter : ℕ) :
    ∀ (fuel : ℕ) (approx a b tolerance r₁ r₂ : ℚ) (st : QState),
      quadFiniteF fuel f approx a b tolerance r₁ limit_iter st =
      quadFiniteF fuel f approx a b tolerance r₂ limit_iter st := by
  intro fuel
  induction fuel with
  | zero => intro approx a b tolerance r₁ r₂ st; rfl
  | succ n ihn =>
    intro approx a b tolerance r₁ r₂ st
    rw [quadFiniteF_succ, quadFiniteF_succ]
    dsimp only
    by_cases h1 : st.error = QuadProcessError.None
    · rw [if_pos h1, if_pos h1]
      by_cases h2 : limit_iter ≤ st.iter + 1
      · rw [if_pos h2, if_pos h2]
      · rw [if_neg h2, if_neg h2]
        by_cases h3 : |approx - (gaussFive f a ((a + (b - a) / 2 - a) / 2) +
              gaussFive f (a + (b - a) / 2) ((a + (b - a) / 2 - a) / 2))| ≤ tolerance
        · rw [if_pos h3, if_pos h3]
        · rw [if_neg h3, if_neg h3]
          by_cases h4 : |approx - (gaussFive f a ((a + (b - a) / 2 - a) / 2) +
              gaussFive f (a + (b - a) / 2) ((a + (b - a) / 2 - a) / 2))| < 1
          · rw [if_pos h4, if_pos h4]
          · rw [if_neg h4, if_neg h4]
            rw [ihn (gaussFive f a ((a + (b - a) / 2 - a) / 2)) a
              (a + (b - a) / 2) (tolerance / 2) r₁ r₂
              ⟨st.iter + 1, st.error, st.error_estimate⟩]
            rw [ihn (gaussFive f (a + (b - a) / 2) ((a + (b - a) / 2 - a) / 2))
              (a + (b - a) / 2) b (tolerance / 2) r₁ r₂
              (quadFiniteF n f (gaussFive f a ((a + (b - a) / 2 - a) / 2)) a
                (a + (b - a) / 2) (tolerance / 2) r₂ limit_iter
                ⟨st.iter + 1, st.error, st.error_estimate⟩).2]
    · rw [if_neg h1, if_neg h1]

/-- If the limit-exceeded status comes out of a `quadFiniteF` call that
did not receive it already set, the final counter has reached the limit. -/
theorem quadFiniteF_limitflag (f : ℚ → ℚ) (rtolerance : ℚ) (limit_iter : ℕ) :
    ∀ (fuel : ℕ) (approx a b tolerance : ℚ) (st : QState),
      1 ≤ fuel → limit_iter < fuel + st.iter →
      (quadFiniteF fuel f approx a b tolerance rtolerance limit_iter st).2.error =
        QuadProcessError.SubintervalLimitExceededError →
      st.error = QuadProcessError.SubintervalLimitExceededError ∨
        limit_iter ≤
          (quadFiniteF fuel f approx a b tolerance rtolerance limit_iter st).2.iter := by
  intro fuel
  induction fuel with
  | zero => intro approx a b tolerance st hf hs; omega
  | succ n ihn =>
    intro approx a b tolerance st hf hs
    rw [quadFiniteF_succ]
    dsimp only
    by_cases h1 : st.error = QuadProcessError.None
    · rw [if_pos h1]
      by_cases h2 : limit_iter ≤ st.iter + 1
      · rw [if_pos h2]
        intro _
        exact Or.inr h2
      · rw [if_neg h2]
        by_cases h3 : |approx - (gaussFive f a ((a + (b - a) / 2 - a) / 2) +
              gaussFive f (a + (b - a) / 2) ((a + (b - a) / 2 - a) / 2))| ≤ tolerance
        · rw [if_pos h3]
          intro hc
          simp only [h1] at hc
          cases hc
        · rw [if_neg h3]
          by_cases h4 : |approx - (gaussFive f a ((a + (b - a) / 2 - a) / 2) +
              gaussFive f (a + (b - a) / 2) ((a + (b - a) / 2 - a) / 2))| < 1
          · rw [if_pos h4]
            intro hc
            cases hc
          · rw [if_neg h4]
            dsimp only
            intro hc
            have hLlt : st.iter + 1 <
                (quadFiniteF n f (gaussFive f a ((a + (b - a) / 2 - a) / 2)) a
                  (a + (b - a) / 2) (tolerance / 2) rtolerance limit_iter
                  ⟨st.iter + 1, st.error, st.error_estimate⟩).2.iter :=
              quadFiniteF_iter_lt f rtolerance limit_iter n
                (gaussFive f a ((a + (b - a) / 2 - a) / 2)) a
                (a + (b - a) / 2) (tolerance / 2)
                ⟨st.iter + 1, st.error, st.error_estimate⟩ (by omega)
                (show limit_iter < n + (st.iter + 1) by omega)
            have hRlt :
                (quadFiniteF n f (gaussFive f a ((a + (b - a) / 2 - a) / 2)) a
                  (a + (b - a) / 2) (tolerance / 2) rtolerance limit_iter
                  ⟨st.iter + 1, st.error, st.error_estimate⟩).2.iter <
                (quadFiniteF n f (gaussFive f (a + (b - a) / 2) ((a + (b - a) / 2 - a) / 2))
                  (a + (b - a) / 2) b (tolerance / 2) rtolerance limit_iter
                  (quadFiniteF n f (gaussFive f a ((a + (b - a) / 2 - a) / 2)) a
                    (a + (b - a) / 2) (tolerance / 2) rtolerance limit_iter
                    ⟨st.iter + 1, st.error, st.error_estimate⟩).2).2.iter :=
              quadFiniteF_iter_lt f rtolerance limit_iter n
                (gaussFive f (a + (b - a) / 2) ((a + (b - a) / 2 - a) / 2)) (a + (b - a) / 2) b (tolerance / 2)
                (quadFiniteF n f (gaussFive f a ((a + (b - a) / 2 - a) / 2)) a
                  (a + (b - a) / 2) (tolerance / 2) rtolerance limit_iter
                  ⟨st.iter + 1, st.error, st.error_estimate⟩).2 (by omega) (by omega)
            have hR := ihn (gaussFive f (a + (b - a) / 2) ((a + (b - a) / 2 - a) / 2)) (a + (b - a) / 2) b (tolerance / 2)
              (quadFiniteF n f (gaussFive f a ((a + (b - a) / 2 - a) / 2)) a
                (a + (b - a) / 2) (tolerance / 2) rtolerance limit_iter
                ⟨st.iter + 1, st.error, st.error_estimate⟩).2 (by omega) (by omega) hc
            rcases hR with hR | hR
            · have hL := ihn (gaussFive f a ((a + (b - a) / 2 - a) / 2)) a (a + (b - a) / 2) (tolerance / 2)
                ⟨st.iter + 1, st.error, st.error_estimate⟩ (by omega)
                (show limit_iter < n + (st.iter + 1) by omega) hR
              rcases hL with hL | hL
              · simp only [h1] at hL
                cases hL
              · exact Or.inr (by omega)
            · exact Or.inr hR
    · rw [if_neg h1]
      intro hc
      exact Or.inl hc



/-- Unfolding of `quadCallsF` at positive fuel, with the accumulation
loops expressed through `gaussFive`. -/
theorem quadCallsF_succ (fuel : ℕ) (f : ℚ → ℚ)
    (approx a b tolerance rtolerance : ℚ) (limit_iter : ℕ) (st : QState) :
    quadCallsF (fuel + 1) f approx a b tolerance rtolerance limit_iter st =
      (let midpoint : ℚ := a + (b - a) / 2
      let center : ℚ := (midpoint - a) / 2
      let left_area : ℚ := gaussFive f a center
      let right_area : ℚ := gaussFive f midpoint center
      if st.error = QuadProcessError.None then
        if limit_iter ≤ st.iter + 1 then 1
        else if |approx - (left_area + right_area)| ≤ tolerance then 1
        else if |approx - (left_area + right_area)| < 1 then 1
        else
          1 + quadCallsF fuel f left_area a midpoint (tolerance / 2) rtolerance
              limit_iter ⟨st.iter + 1, st.error, st.error_estimate⟩ +
            quadCallsF fuel f right_area midpoint b (tolerance / 2) rtolerance
              limit_iter
              (quadFiniteF fuel f left_area a midpoint (tolerance / 2)
                rtolerance limit_iter
                ⟨st.iter + 1, st.error, st.error_estimate⟩).2
      else 1) := by
  show (let st1 : QState := ⟨st.iter + 1, st.error, st.error_estimate⟩
    let midpoint : ℚ := a + (b - a) / 2
    let center : ℚ := (midpoint - a) / 2
    let left_area : ℚ :=
      ((List.finRange 5).foldl
        (fun acc i => acc + f ((X i + 1) * center + a) * W i) 0) * center
    let right_area : ℚ :=
      ((List.finRange 5).foldl
        (fun acc i => acc + f ((X i + 1) * center + midpoint) * W i) 0) * center
    if st1.error = QuadProcessError.None then
      if limit_iter ≤ st1.iter then 1
      else if |approx - (left_area + right_area)| ≤ tolerance then 1
      else if |approx - (left_area + right_area)| < 1 then 1
      else
        1 + quadCallsF fuel f left_area a midpoint (tolerance / 2) rtolerance
            limit_iter st1 +
          quadCallsF fuel f right_area midpoint b (tolerance / 2) rtolerance
            limit_iter
            (quadFiniteF fuel f left_area a midpoint (tolerance / 2) rtolerance
              limit_iter st1).2
    else 1) = _
  dsimp only
  rw [gaussFive_foldl, gaussFive_foldl]

/-- Across one `quadFiniteF` run the shared counter advances by exactly
the number of invocations performed. -/
theorem quadFiniteF_iter_eq_calls (f : ℚ → ℚ) (rtolerance : ℚ)
    (limit_iter : ℕ) :
    ∀ (fuel : ℕ) (approx a b tolerance : ℚ) (st : QState),
      1 ≤ fuel → limit_iter < fuel + st.iter →
      (quadFiniteF fuel f approx a b tolerance rtolerance limit_iter st).2.iter =
          st.iter +
            quadCallsF fuel f approx a b tolerance rtolerance limit_iter st ∧
        1 ≤ quadCallsF fuel f approx a b tolerance rtolerance limit_iter st := by
  intro fuel
  induction fuel with
  | zero => intro approx a b tolerance st hf hs; omega
  | succ n ihn =>
    intro approx a b tolerance st hf hs
    rw [quadFiniteF_succ, quadCallsF_succ]
    dsimp only
    by_cases h1 : st.error = QuadProcessError.None
    · rw [if_pos h1, if_pos h1]
      by_cases h2 : limit_iter ≤ st.iter + 1
      · rw [if_pos h2, if_pos h2]
        exact ⟨rfl, le_refl 1⟩
      · rw [if_neg h2, if_neg h2]
        by_cases h3 : |approx - (gaussFive f a ((a + (b - a) / 2 - a) / 2) +
              gaussFive f (a + (b - a) / 2) ((a + (b - a) / 2 - a) / 2))| ≤ tolerance
        · rw [if_pos h3, if_pos h3]
          exact ⟨rfl, le_refl 1⟩
        · rw [if_neg h3, if_neg h3]
          by_cases h4 : |approx - (gaussFive f a ((a + (b - a) / 2 - a) / 2) +
              gaussFive f (a + (b - a) / 2) ((a + (b - a) / 2 - a) / 2))| < 1
          · rw [if_pos h4, if_pos h4]
            exact ⟨rfl, le_refl 1⟩
          · rw [if_neg h4, if_neg h4]
            dsimp only
            have hL := ihn (gaussFive f a ((a + (b - a) / 2 - a) / 2)) a (a + (b - a) / 2) (tolerance / 2)
              ⟨st.iter + 1, st.error, st.error_estimate⟩ (by omega)
              (show limit_iter < n + (st.iter + 1) by omega)
            have hLlt : st.iter + 1 <
                (quadFiniteF n f (gaussFive f a ((a + (b - a) / 2 - a) / 2)) a
                  (a + (b - a) / 2) (tolerance / 2) rtolerance limit_iter
                  ⟨st.iter + 1, st.error, st.error_estimate⟩).2.iter :=
              quadFiniteF_iter_lt f rtolerance limit_iter n
                (gaussFive f a ((a + (b - a) / 2 - a) / 2)) a
                (a + (b - a) / 2) (tolerance / 2)
                ⟨st.iter + 1, st.error, st.error_estimate⟩ (by omega)
                (show limit_iter < n + (st.iter + 1) by omega)
            have hR := ihn (gaussFive f (a + (b - a) / 2) ((a + (b - a) / 2 - a) / 2)) (a + (b - a) / 2) b (tolerance / 2)
              (quadFiniteF n f (gaussFive f a ((a + (b - a) / 2 - a) / 2)) a
                (a + (b - a) / 2) (tolerance / 2) rtolerance limit_iter
                ⟨st.iter + 1, st.error, st.error_estimate⟩).2 (by omega) (by omega)
            rcases hL with ⟨hL1, hL2⟩
            rcases hR with ⟨hR1, hR2⟩
            constructor
            · dsimp only at hL1 hR1 ⊢
              omega
            · omega
    · rw [if_neg h1, if_neg h1]
      exact ⟨rfl, le_refl 1⟩



/-- `quad_finite` never reads its `rtolerance` argument. -/
theorem quad_finite_rtol (f : ℚ → ℚ) (approx a b tolerance r₁ r₂ : ℚ)
    (limit_iter : ℕ) (st : QState) :
    quad_finite f approx a b tolerance r₁ limit_iter st =
    quad_finite f approx a b tolerance r₂ limit_iter st :=
  quadFiniteF_rtol f limit_iter (limit_iter + 1) approx a b tolerance r₁ r₂ st

/-- A limit-exceeded status leaving `quad_finite` was either already set on
entry, or the final counter has reached the limit. -/
theorem quad_finite_limitflag (f : ℚ → ℚ) (approx a b tolerance rtolerance : ℚ)
    (limit_iter : ℕ) (st : QState)
    (hc : (quad_finite f approx a b tolerance rtolerance limit_iter st).2.error =
      QuadProcessError.SubintervalLimitExceededError) :
    st.error = QuadProcessError.SubintervalLimitExceededError ∨
      limit_iter ≤
        (quad_finite f approx a b tolerance rtolerance limit_iter st).2.iter :=
  quadFiniteF_limitflag f rtolerance limit_iter (limit_iter + 1)
    approx a b tolerance st (by omega) (by omega) hc

/-- The counter leaving `quad_finite` is the counter entering it plus the
number of invocations performed, and at least one invocation happens. -/
theorem quad_finite_iter_eq_calls (f : ℚ → ℚ)
    (approx a b tolerance rtolerance : ℚ) (limit_iter : ℕ) (st : QState) :
    (quad_finite f approx a b tolerance rtolerance limit_iter st).2.iter =
        st.iter + quadCalls f approx a b tolerance rtolerance limit_iter st ∧
      1 ≤ quadCalls f approx a b tolerance rtolerance limit_iter st :=
  quadFiniteF_iter_eq_calls f rtolerance limit_iter (limit_iter + 1)
    approx a b tolerance st (by omega) (by omega)

/-- The shared counter strictly increases across `quad_infinite`. -/
theorem quad_infinite_iter_lt (f : ℚ → ℚ) (a : ℚ) (inf : ℤ)
    (tolerance rtolerance : ℚ) (limit_iter : ℕ) (st : QState) :
    st.iter <
      (quad_infinite f a inf tolerance rtolerance limit_iter st).2.iter := by
  rw [quad_infinite]
  dsimp only
  by_cases hinf : inf = 1
  · rw [if_pos hinf]
    by_cases ha : a < 1
    · rw [if_pos ha]
      dsimp only
      have h1 := quad_finite_iter_lt f 0 a 1 tolerance rtolerance limit_iter st
      have h2 := quad_finite_iter_lt (fun x => f (1 / x) / x ^ 2) 0 1 0
        tolerance rtolerance limit_iter
        (quad_finite f 0 a 1 tolerance rtolerance limit_iter st).2
      omega
    · rw [if_neg ha]
      exact quad_finite_iter_lt _ _ _ _ _ _ _ _
  · rw [if_neg hinf]
    by_cases ha : -1 < a
    · rw [if_pos ha]
      dsimp only
      have h1 := quad_finite_iter_lt f 0 (-1) a tolerance rtolerance limit_iter st
      have h2 := quad_finite_iter_lt (fun x => f (1 / x) / x ^ 2) 0 (-1) 0
        tolerance rtolerance limit_iter
        (quad_finite f 0 (-1) a tolerance rtolerance limit_iter st).2
      omega
    · rw [if_neg ha]
      exact quad_finite_iter_lt _ _ _ _ _ _ _ _

/-- A limit-exceeded status leaving `quad_infinite` was either already set
on entry, or the final counter has reached the limit. -/
theorem quad_infinite_limitflag (f : ℚ → ℚ) (a : ℚ) (inf : ℤ)
    (tolerance rtolerance : ℚ) (limit_iter : ℕ) (st : QState)
    (hc : (quad_infinite f a inf tolerance rtolerance limit_iter st).2.error =
      QuadProcessError.SubintervalLimitExceededError) :
    st.error = QuadProcessError.SubintervalLimitExceededError ∨
      limit_iter ≤
        (quad_infinite f a inf tolerance rtolerance limit_iter st).2.iter := by
  rw [quad_infinite] at hc ⊢
  dsimp only at hc ⊢
  by_cases hinf : inf = 1
  · rw [if_pos hinf] at hc ⊢
    by_cases ha : a < 1
    · rw [if_pos ha] at hc ⊢
      dsimp only at hc ⊢
      have h2lt := quad_finite_iter_lt (fun x => f (1 / x) / x ^ 2) 0 1 0
        tolerance rtolerance limit_iter
        (quad_finite f 0 a 1 tolerance rtolerance limit_iter st).2
      rcases quad_finite_limitflag (fun x => f (1 / x) / x ^ 2) 0 1 0
          tolerance rtolerance limit_iter
          (quad_finite f 0 a 1 tolerance rtolerance limit_iter st).2 hc with
        h | h
      · rcases quad_finite_limitflag f 0 a 1 tolerance rtolerance limit_iter
            st h with h' | h'
        · exact Or.inl h'
        · exact Or.inr (by omega)
      · exact Or.inr h
    · rw [if_neg ha] at hc ⊢
      exact quad_finite_limitflag _ _ _ _ _ _ _ _ hc
  · rw [if_neg hinf] at hc ⊢
    by_cases ha : -1 < a
    · rw [if_pos ha] at hc ⊢
      dsimp only at hc ⊢
      have h2lt := quad_finite_iter_lt (fun x => f (1 / x) / x ^ 2) 0 (-1) 0
        tolerance rtolerance limit_iter
        (quad_finite f 0 (-1) a tolerance rtolerance limit_iter st).2
      rcases quad_finite_limitflag (fun x => f (1 / x) / x ^ 2) 0 (-1) 0
          tolerance rtolerance limit_iter
          (quad_finite f 0 (-1) a tolerance rtolerance limit_iter st).2 hc with
        h | h
      · rcases quad_finite_limitflag f 0 (-1) a tolerance rtolerance limit_iter
            st h with h' | h'
        · exact Or.inl h'
        · exact Or.inr (by omega)
      · exact Or.inr h
    · rw [if_neg ha] at hc ⊢
      exact quad_finite_limitflag _ _ _ _ _ _ _ _ hc

/-- `quad_infinite` never reads its `rtolerance` argument. -/
theorem quad_infinite_rtol (f : ℚ → ℚ) (a : ℚ) (inf : ℤ)
    (tolerance r₁ r₂ : ℚ) (limit_iter : ℕ) (st : QState) :
    quad_infinite f a inf tolerance r₁ limit_iter st =
    quad_infinite f a inf tolerance r₂ limit_iter st := by
  rw [quad_infinite, quad_infinite]
  dsimp only
  by_cases hinf : inf = 1
  · rw [if_pos hinf, if_pos hinf]
    by_cases ha : a < 1
    · rw [if_pos ha, if_pos ha]
      rw [quad_finite_rtol f 0 a 1 tolerance r₁ r₂,
        quad_finite_rtol (fun x => f (1 / x) / x ^ 2) 0 1 0 tolerance r₁ r₂]
    · rw [if_neg ha, if_neg ha]
      exact quad_finite_rtol _ _ _ _ _ _ _ _ _
  · rw [if_neg hinf, if_neg hinf]
    by_cases ha : -1 < a
    · rw [if_pos ha, if_pos ha]
      rw [quad_finite_rtol f 0 (-1) a tolerance r₁ r₂,
        quad_finite_rtol (fun x => f (1 / x) / x ^ 2) 0 (-1) 0 tolerance r₁ r₂]
    · rw [if_neg ha, if_neg ha]
      exact quad_finite_rtol _ _ _ _ _ _ _ _ _



/-- If the dispatch of `run` comes back with the limit-exceeded status,
the reported counter has reached the configured subinterval limit (it can
only exceed it: the counter starts at `1` and already-scheduled sibling
calls still increment it after the flag is set). -/
theorem Quad.dispatch_limitflag (q : Quad) (sol : ℚ) (st' : QState)
    (hd : q.dispatch = some (sol, st'))
    (hc : st'.error = QuadProcessError.SubintervalLimitExceededError) :
    q.limit_subintevals ≤ st'.iter := by
  rw [Quad.dispatch] at hd
  dsimp only at hd
  by_cases c1 : (q.a.is_finite && q.b.is_finite) = true
  · rw [if_pos c1, Option.some.injEq] at hd
    have hst : (quad_finite q.f 0 q.a.toRat q.b.toRat q.tolerance
        q.relative_tolerance q.limit_subintevals
        ⟨1, QuadProcessError.None, 0⟩).2 = st' := by rw [hd]
    rw [← hst] at hc ⊢
    rcases quad_finite_limitflag q.f 0 q.a.toRat q.b.toRat q.tolerance
        q.relative_tolerance q.limit_subintevals
        ⟨1, QuadProcessError.None, 0⟩ hc with h | h
    · simp at h
    · exact h
  · rw [if_neg c1] at hd
    by_cases c2 : (q.a.is_finite && q.b.is_infinite) = true
    · rw [if_pos c2, Option.some.injEq] at hd
      have hst : (quad_infinite q.f q.a.toRat 1 q.tolerance
          q.relative_tolerance q.limit_subintevals
          ⟨1, QuadProcessError.None, 0⟩).2 = st' := by rw [hd]
      rw [← hst] at hc ⊢
      rcases quad_infinite_limitflag q.f q.a.toRat 1 q.tolerance
          q.relative_tolerance q.limit_subintevals
          ⟨1, QuadProcessError.None, 0⟩ hc with h | h
      · simp at h
      · exact h
    · rw [if_neg c2] at hd
      by_cases c3 : (q.a.is_infinite && q.b.is_finite) = true
      · rw [if_pos c3, Option.some.injEq] at hd
        have hst : (quad_infinite q.f q.b.toRat (-1) q.tolerance
            q.relative_tolerance q.limit_subintevals
            ⟨1, QuadProcessError.None, 0⟩).2 = st' := by rw [hd]
        rw [← hst] at hc ⊢
        rcases quad_infinite_limitflag q.f q.b.toRat (-1) q.tolerance
            q.relative_tolerance q.limit_subintevals
            ⟨1, QuadProcessError.None, 0⟩ hc with h | h
        · simp at h
        · exact h
      · rw [if_neg c3] at hd
        by_cases c4 : (q.a.is_infinite && q.b.is_infinite) = true
        · rw [if_pos c4, Option.some.injEq] at hd
          have hst : (quad_infinite q.f 0 1 q.tolerance
              q.relative_tolerance q.limit_subintevals
              (quad_infinite q.f 0 (-1) q.tolerance
                q.relative_tolerance q.limit_subintevals
                ⟨1, QuadProcessError.None, 0⟩).2).2 = st' := congrArg Prod.snd hd
          rw [← hst] at hc ⊢
          have hlt := quad_infinite_iter_lt q.f 0 1 q.tolerance
            q.relative_tolerance q.limit_subintevals
            (quad_infinite q.f 0 (-1) q.tolerance
              q.relative_tolerance q.limit_subintevals
              ⟨1, QuadProcessError.None, 0⟩).2
          rcases quad_infinite_limitflag q.f 0 1 q.tolerance
              q.relative_tolerance q.limit_subintevals
              (quad_infinite q.f 0 (-1) q.tolerance
                q.relative_tolerance q.limit_subintevals
                ⟨1, QuadProcessError.None, 0⟩).2 hc with h | h
          · rcases quad_infinite_limitflag q.f 0 (-1) q.tolerance
                q.relative_tolerance q.limit_subintevals
                ⟨1, QuadProcessError.None, 0⟩ h with h' | h'
            · simp at h'
            · omega
          · exact h
        · rw [if_neg c4] at hd
          cases hd

/-- The dispatch of `run` is independent of the stored relative
tolerance. -/
theorem Quad.dispatch_rtol (q : Quad) (r₁ r₂ : ℚ) :
    ({ q with relative_tolerance := r₁ } : Quad).dispatch =
    ({ q with relative_tolerance := r₂ } : Quad).dispatch := by
  rw [Quad.dispatch, Quad.dispatch]
  dsimp only
  by_cases c1 : (q.a.is_finite && q.b.is_finite) = true
  · rw [if_pos c1, if_pos c1]
    rw [quad_finite_rtol q.f 0 q.a.toRat q.b.toRat q.tolerance r₁ r₂]
  · rw [if_neg c1, if_neg c1]
    by_cases c2 : (q.a.is_finite && q.b.is_infinite) = true
    · rw [if_pos c2, if_pos c2]
      rw [quad_infinite_rtol q.f q.a.toRat 1 q.tolerance r₁ r₂]
    · rw [if_neg c2, if_neg c2]
      by_cases c3 : (q.a.is_infinite && q.b.is_finite) = true
      · rw [if_pos c3, if_pos c3]
        rw [quad_infinite_rtol q.f q.b.toRat (-1) q.tolerance r₁ r₂]
      · rw [if_neg c3, if_neg c3]
        by_cases c4 : (q.a.is_infinite && q.b.is_infinite) = true
        · rw [if_pos c4, if_pos c4]
          rw [quad_infinite_rtol q.f 0 (-1) q.tolerance r₁ r₂,
            quad_infinite_rtol q.f 0 1 q.tolerance r₁ r₂]
        · rw [if_neg c4, if_neg c4]



/-- A `quad_finite` call on a degenerate interval `[a, a]` with `approx = 0`,
no pre-set flag, counter strictly below the limit after increment, and a
nonnegative tolerance converges immediately to `0`. -/
theorem quad_finite_degenerate (f : ℚ → ℚ) (a tolerance rtolerance : ℚ)
    (limit_iter : ℕ) (st : QState) (h : st.error = QuadProcessError.None)
    (h2 : st.iter + 1 < limit_iter) (htol : 0 ≤ tolerance) :
    quad_finite f 0 a a tolerance rtolerance limit_iter st =
      (0, ⟨st.iter + 1, QuadProcessError.None, st.error_estimate⟩) := by
  have hc : ((a + (a - a) / 2 - a) / 2 : ℚ) = 0 := by ring
  rw [quad_finite_conv f 0 a a tolerance rtolerance limit_iter st h (by omega)
    (by rw [hc, gaussFive_center_zero, gaussFive_center_zero]; simpa using htol)]
  rw [hc, gaussFive_center_zero, gaussFive_center_zero, h]
  norm_num

/-- A `quad_finite` call on an everywhere-zero integrand with `approx = 0`
converges immediately to `0`. -/
theorem quad_finite_zero_fn (f : ℚ → ℚ) (hf : ∀ x, f x = 0)
    (a b tolerance rtolerance : ℚ) (limit_iter : ℕ) (st : QState)
    (h : st.error = QuadProcessError.None) (h2 : ¬ limit_iter ≤ st.iter + 1)
    (htol : 0 ≤ tolerance) :
    quad_finite f 0 a b tolerance rtolerance limit_iter st =
      (0, ⟨st.iter + 1, QuadProcessError.None, st.error_estimate⟩) := by
  rw [quad_finite_conv f 0 a b tolerance rtolerance limit_iter st h h2
    (by rw [gaussFive_eq_zero f hf, gaussFive_eq_zero f hf]; simpa using htol)]
  rw [gaussFive_eq_zero f hf, gaussFive_eq_zero f hf, h]
  norm_num

/-- C7: `precision_equals x1 x2 tol rtol` returns `true` exactly when
`|x1 - x2| ≤ tol + rtol * |x2|`; the relative tolerance scales only the
magnitude of the second operand. -/
theorem claim_C7_precision_equals_iff (x1 x2 tol rtol : ℚ) :
    precision_equals x1 x2 tol rtol = true ↔ |x1 - x2| ≤ tol + rtol * |x2| := by
  simp [precision_equals]

/-- C6: a below-floor tolerance passed to `change_tolerance` (resp.
`change_relative_tolerance`) records an invalid-input error in the
configuration while still storing the value, and a subsequent `run`
returns that invalid-input error before any integration work. -/
theorem claim_C6_invalid_tolerance_deferred (q : Quad) (tol rtol : ℚ)
    (htol : tol < LIMIT_TOL) (hrtol : rtol < LIMIT_TOL) :
    ((q.change_tolerance tol).error_type =
        QuadError.InvalidInput "Invalid Tolerance\n" ∧
      (q.change_tolerance tol).tolerance = tol ∧
      (q.change_tolerance tol).run =
        Except.error (QuadError.InvalidInput "Invalid Tolerance\n")) ∧
    ((q.change_relative_tolerance rtol).error_type =
        QuadError.InvalidInput "Invalid Relative Tolerance\n" ∧
      (q.change_relative_tolerance rtol).relative_tolerance = rtol ∧
      (q.change_relative_tolerance rtol).run =
        Except.error (QuadError.InvalidInput "Invalid Relative Tolerance\n")) := by
  have he : (q.change_tolerance tol).error_type =
      QuadError.InvalidInput "Invalid Tolerance\n" := by
    rw [Quad.change_tolerance]
    dsimp only
    rw [if_pos htol]
  have he' : (q.change_relative_tolerance rtol).error_type =
      QuadError.InvalidInput "Invalid Relative Tolerance\n" := by
    rw [Quad.change_relative_tolerance]
    dsimp only
    rw [if_pos hrtol]
  refine ⟨⟨he, ?_, Quad.run_invalid _ _ he⟩, ⟨he', ?_, Quad.run_invalid _ _ he'⟩⟩
  · rw [Quad.change_tolerance]
  · rw [Quad.change_relative_tolerance]

/-- C6 witness at a concrete configuration and the concrete value `0`. -/
theorem claim_C6_witness :
    (0 : ℚ) < LIMIT_TOL ∧
    (( Quad.initialize (fun x => x) (F64E.finite 0)
        (F64E.finite 1)).change_tolerance 0).run =
      Except.error (QuadError.InvalidInput "Invalid Tolerance\n") ∧
    (( Quad.initialize (fun x => x) (F64E.finite 0)
        (F64E.finite 1)).change_relative_tolerance 0).run =
      Except.error (QuadError.InvalidInput "Invalid Relative Tolerance\n") := by
  have h : (0 : ℚ) < LIMIT_TOL := by norm_num [LIMIT_TOL, EPSILON]
  exact ⟨h,
    (claim_C6_invalid_tolerance_deferred
      ( Quad.initialize (fun x => x) (F64E.finite 0) (F64E.finite 1)) 0 0
      h h).1.2.2,
    (claim_C6_invalid_tolerance_deferred
      ( Quad.initialize (fun x => x) (F64E.finite 0) (F64E.finite 1)) 0 0
      h h).2.2.2⟩

/-- C8: across any `quad_finite` call tree the shared counter strictly
increases — it is never reset or decreased — and the final counter equals
the initial counter plus the number of `quad_finite` invocations
performed (each invocation, short-circuited ones included, adds exactly
one). -/
theorem claim_C8_counter_monotone (f : ℚ → ℚ)
    (approx a b tolerance rtolerance : ℚ) (limit_iter : ℕ) (st : QState) :
    st.iter <
        (quad_finite f approx a b tolerance rtolerance limit_iter st).2.iter ∧
      (quad_finite f approx a b tolerance rtolerance limit_iter st).2.iter =
        st.iter + quadCalls f approx a b tolerance rtolerance limit_iter st ∧
      1 ≤ quadCalls f approx a b tolerance rtolerance limit_iter st :=
  ⟨quad_finite_iter_lt f approx a b tolerance rtolerance limit_iter st,
    (quad_finite_iter_eq_calls f approx a b tolerance rtolerance limit_iter st).1,
    (quad_finite_iter_eq_calls f approx a b tolerance rtolerance limit_iter st).2⟩

/-- C9: on a zero-length interval `[a, a]` the adaptive integrator yields
a rule output of `0` with no recursion: the convergence branch fires on
the first call (rule output `0`, zero error contribution), and a full
`run` on `[a, a]` completes with integral `0`, error estimate `0`, and the
counter advanced once (from its initial value `1` to `2`). -/
theorem claim_C9_degenerate_interval (f : ℚ → ℚ) (a tolerance rtolerance : ℚ)
    (limit_iter : ℕ) (st : QState) (h : st.error = QuadProcessError.None)
    (h2 : st.iter + 1 < limit_iter) (htol : 0 ≤ tolerance) :
    quad_finite f 0 a a tolerance rtolerance limit_iter st =
        (0, ⟨st.iter + 1, QuadProcessError.None, st.error_estimate⟩) ∧
      ( Quad.initialize f (F64E.finite a) (F64E.finite a)).run =
        Except.ok ⟨"Completed Integration", 2, 0, 0⟩ := by
  constructor
  · exact quad_finite_degenerate f a tolerance rtolerance limit_iter st h h2 htol
  · have hqf : quad_finite f 0 a a DEFAULT_TOL DEFAULT_RTOL
        DEFAULT_SUBINTERVAL_LIMIT ⟨1, QuadProcessError.None, 0⟩ =
        (0, ⟨2, QuadProcessError.None, 0⟩) :=
      quad_finite_degenerate f a DEFAULT_TOL DEFAULT_RTOL
        DEFAULT_SUBINTERVAL_LIMIT ⟨1, QuadProcessError.None, 0⟩ rfl
        (by norm_num [DEFAULT_SUBINTERVAL_LIMIT])
        (by norm_num [DEFAULT_TOL])
    rw [Quad.run]
    rw [show ( Quad.initialize f (F64E.finite a) (F64E.finite a)).error_type =
      QuadError.None from rfl]
    rw [show ( Quad.initialize f (F64E.finite a) (F64E.finite a)).dispatch =
      some (0, ⟨2, QuadProcessError.None, 0⟩) by
      simp only [Quad.dispatch, Quad.initialize, F64E.is_finite, F64E.toRat,
        Bool.and_self, if_true]
      rw [hqf]]

/-- C9 witness at concrete inputs. -/
theorem claim_C9_witness :
    (⟨1, QuadProcessError.None, 0⟩ : QState).iter + 1 < 10 ∧ (0 : ℚ) ≤ 1 ∧
    quad_finite (fun x => x) 0 5 5 1 0 10 ⟨1, QuadProcessError.None, 0⟩ =
        (0, ⟨2, QuadProcessError.None, 0⟩) ∧
    ( Quad.initialize (fun x => x) (F64E.finite 5) (F64E.finite 5)).run =
        Except.ok ⟨"Completed Integration", 2, 0, 0⟩ := by
  have hc := claim_C9_degenerate_interval (fun x => x) 5 1 0 10
    ⟨1, QuadProcessError.None, 0⟩ rfl (by norm_num) (by norm_num)
  exact ⟨by norm_num, by norm_num, hc.1, hc.2⟩

/-- C4: every `quad_finite` invocation increments the counter, computes
the two 5-point half-estimates, and then follows exactly the precedence:
pre-set flag → return the sum; counter at the limit → flag and return;
gap within tolerance → accumulate the gap into the error estimate and
return; gap below `1.0` → flag divergent and return without recursing;
otherwise recurse into both halves with the tolerance halved. -/
theorem claim_C4_decision_tree (f : ℚ → ℚ)
    (approx a b tolerance rtolerance : ℚ) (limit_iter : ℕ) (st : QState) :
    (¬ st.error = QuadProcessError.None →
      quad_finite f approx a b tolerance rtolerance limit_iter st =
        (gaussFive f a ((a + (b - a) / 2 - a) / 2) + gaussFive f (a + (b - a) / 2) ((a + (b - a) / 2 - a) / 2),
          ⟨st.iter + 1, st.error, st.error_estimate⟩)) ∧
    (st.error = QuadProcessError.None → limit_iter ≤ st.iter + 1 →
      quad_finite f approx a b tolerance rtolerance limit_iter st =
        (gaussFive f a ((a + (b - a) / 2 - a) / 2) + gaussFive f (a + (b - a) / 2) ((a + (b - a) / 2 - a) / 2),
          ⟨st.iter + 1, QuadProcessError.SubintervalLimitExceededError,
            st.error_estimate⟩)) ∧
    (st.error = QuadProcessError.None → ¬ limit_iter ≤ st.iter + 1 →
      |approx - (gaussFive f a ((a + (b - a) / 2 - a) / 2) +
          gaussFive f (a + (b - a) / 2) ((a + (b - a) / 2 - a) / 2))| ≤ tolerance →
      quad_finite f approx a b tolerance rtolerance limit_iter st =
        (gaussFive f a ((a + (b - a) / 2 - a) / 2) + gaussFive f (a + (b - a) / 2) ((a + (b - a) / 2 - a) / 2),
          ⟨st.iter + 1, st.error,
            st.error_estimate + |approx - (gaussFive f a ((a + (b - a) / 2 - a) / 2) +
          gaussFive f (a + (b - a) / 2) ((a + (b - a) / 2 - a) / 2))|⟩)) ∧
    (st.error = QuadProcessError.None → ¬ limit_iter ≤ st.iter + 1 →
      ¬ |approx - (gaussFive f a ((a + (b - a) / 2 - a) / 2) +
          gaussFive f (a + (b - a) / 2) ((a + (b - a) / 2 - a) / 2))| ≤ tolerance →
      |approx - (gaussFive f a ((a + (b - a) / 2 - a) / 2) +
          gaussFive f (a + (b - a) / 2) ((a + (b - a) / 2 - a) / 2))| < 1 →
      quad_finite f approx a b tolerance rtolerance limit_iter st =
        (gaussFive f a ((a + (b - a) / 2 - a) / 2) + gaussFive f (a + (b - a) / 2) ((a + (b - a) / 2 - a) / 2),
          ⟨st.iter + 1, QuadProcessError.Divergence, st.error_estimate⟩)) ∧
    (st.error = QuadProcessError.None → ¬ limit_iter ≤ st.iter + 1 →
      ¬ |approx - (gaussFive f a ((a + (b - a) / 2 - a) / 2) +
          gaussFive f (a + (b - a) / 2) ((a + (b - a) / 2 - a) / 2))| ≤ tolerance →
      ¬ |approx - (gaussFive f a ((a + (b - a) / 2 - a) / 2) +
          gaussFive f (a + (b - a) / 2) ((a + (b - a) / 2 - a) / 2))| < 1 →
      quad_finite f approx a b tolerance rtolerance limit_iter st =
        (let pL := quad_finite f (gaussFive f a ((a + (b - a) / 2 - a) / 2)) a
          (a + (b - a) / 2) (tolerance / 2) rtolerance limit_iter
          ⟨st.iter + 1, st.error, st.error_estimate⟩
        let pR := quad_finite f (gaussFive f (a + (b - a) / 2) ((a + (b - a) / 2 - a) / 2))
          (a + (b - a) / 2) b (tolerance / 2) rtolerance limit_iter pL.2
        (pL.1 + pR.1, pR.2))) :=
  ⟨fun h => quad_finite_flagged f approx a b tolerance rtolerance limit_iter st h,
    fun h h2 => quad_finite_limit f approx a b tolerance rtolerance limit_iter st h h2,
    fun h h2 h3 => quad_finite_conv f approx a b tolerance rtolerance limit_iter st h h2 h3,
    fun h h2 h3 h4 => quad_finite_divergence f approx a b tolerance rtolerance limit_iter st h h2 h3 h4,
    fun h h2 h3 h4 => quad_finite_recurse f approx a b tolerance rtolerance limit_iter st h h2 h3 h4⟩

/-- C4 witness: the convergence branch at a concrete input. -/
theorem claim_C4_witness :
    ¬ (10 : ℕ) ≤ 1 + 1 ∧
    |(0 : ℚ) - (gaussFive (fun _ => (0 : ℚ)) 0 ((0 + (1 - 0) / 2 - 0) / 2) +
      gaussFive (fun _ => (0 : ℚ)) (0 + (1 - 0) / 2)
        ((0 + (1 - 0) / 2 - 0) / 2))| ≤ 1 ∧
    quad_finite (fun _ => (0 : ℚ)) 0 0 1 1 0 10 ⟨1, QuadProcessError.None, 0⟩ =
      (gaussFive (fun _ => (0 : ℚ)) 0 ((0 + (1 - 0) / 2 - 0) / 2) +
        gaussFive (fun _ => (0 : ℚ)) (0 + (1 - 0) / 2) ((0 + (1 - 0) / 2 - 0) / 2),
        ⟨1 + 1, QuadProcessError.None,
          0 + |(0 : ℚ) - (gaussFive (fun _ => (0 : ℚ)) 0 ((0 + (1 - 0) / 2 - 0) / 2) +
            gaussFive (fun _ => (0 : ℚ)) (0 + (1 - 0) / 2)
              ((0 + (1 - 0) / 2 - 0) / 2))|⟩) := by
  have habs : |(0 : ℚ) - (gaussFive (fun _ => (0 : ℚ)) 0 ((0 + (1 - 0) / 2 - 0) / 2) +
      gaussFive (fun _ => (0 : ℚ)) (0 + (1 - 0) / 2)
        ((0 + (1 - 0) / 2 - 0) / 2))| ≤ 1 := by
    rw [gaussFive_eq_zero _ (fun _ => rfl), gaussFive_eq_zero _ (fun _ => rfl)]
    norm_num
  exact ⟨by norm_num, habs,
    (claim_C4_decision_tree (fun _ => (0 : ℚ)) 0 0 1 1 0 10
      ⟨1, QuadProcessError.None, 0⟩).2.2.1 rfl (by norm_num) habs⟩



/-- Evaluation of the full adaptive run for `f = 1/2` on `[0, 1]` with the
default configuration: the very first call lands in the divergence branch
(the coarse-vs-refined gap is `≈ 0.5`, above the default tolerance and
below `1.0`), so the dispatch comes back with the divergent status set. -/
theorem divergent_run_eval :
    ( Quad.initialize (fun _ => (1 : ℚ) / 2) (F64E.finite 0)
        (F64E.finite 1)).dispatch =
      some (20000000000000001 / 40000000000000000,
        ⟨2, QuadProcessError.Divergence, 0⟩) := by
  have hqf : quad_finite (fun _ => (1 : ℚ) / 2) 0 0 1 DEFAULT_TOL DEFAULT_RTOL
      10000 ⟨1, QuadProcessError.None, 0⟩ =
      (20000000000000001 / 40000000000000000,
        ⟨2, QuadProcessError.Divergence, 0⟩) := by
    rw [quad_finite_divergence (fun _ => (1 : ℚ) / 2) 0 0 1 DEFAULT_TOL
      DEFAULT_RTOL 10000 ⟨1, QuadProcessError.None, 0⟩ rfl (by norm_num)
      (by rw [gaussFive_const, gaussFive_const]
          norm_num [DEFAULT_TOL]
          rw [abs_of_pos (by norm_num)]
          norm_num)
      (by rw [gaussFive_const, gaussFive_const]
          norm_num
          rw [abs_of_pos (by norm_num)]
          norm_num)]
    rw [gaussFive_const, gaussFive_const]
    norm_num
  simp only [Quad.dispatch, Quad.initialize, F64E.is_finite, F64E.toRat,
    DEFAULT_SUBINTERVAL_LIMIT, Bool.and_self, if_true]
  rw [hqf]

/-- C1: the divergent process status does not surface as
`QuadError::Divergence`.  On `f = 1/2` over `[0, 1]` with the default
configuration the recursion sets the divergent status on its first call,
yet `run` falls into the catch-all arm of its final `match` and returns
`Ok` with a finite integral (`≈ 0.5`) and the message
"Completed Integration" — the repo's own tests (e.g.
`test_quad_singularity2_div`) instead demand `Err(QuadError::Divergence)`. -/
theorem claim_C1_divergent_status_returns_ok :
    ( Quad.initialize (fun _ => (1 : ℚ) / 2) (F64E.finite 0)
        (F64E.finite 1)).dispatch =
      some (20000000000000001 / 40000000000000000,
        ⟨2, QuadProcessError.Divergence, 0⟩) ∧
    ( Quad.initialize (fun _ => (1 : ℚ) / 2) (F64E.finite 0)
        (F64E.finite 1)).run =
      Except.ok ⟨"Completed Integration", 2, 0,
        20000000000000001 / 40000000000000000⟩ := by
  refine ⟨divergent_run_eval, ?_⟩
  rw [Quad.run]
  rw [show ( Quad.initialize (fun _ => (1 : ℚ) / 2) (F64E.finite 0)
    (F64E.finite 1)).error_type = QuadError.None from rfl]
  rw [divergent_run_eval]

/-- C2 counterexample: the claimed guard `!(a.is_finite() || b.is_finite())`
does not describe `run`.  With both endpoints `+∞` the claimed predicate
holds, yet `run` dispatches to the transform and completes (here on the
zero integrand, with value `0` and five counted calls); conversely with
`a = NaN`, `b = 0` the claimed predicate fails, yet `run` rejects with the
interval error. -/
theorem claim_C2_counterexample :
    ((F64E.posInf.is_finite || F64E.posInf.is_finite) = false ∧
      ( Quad.initialize (fun _ => (0 : ℚ)) F64E.posInf F64E.posInf).run =
        Except.ok ⟨"Completed Integration", 5, 0, 0⟩) ∧
    ((F64E.nan.is_finite || (F64E.finite 0).is_finite) = true ∧
      ( Quad.initialize (fun _ => (0 : ℚ)) F64E.nan (F64E.finite 0)).run =
        Except.error QuadError.IntervalError) := by
  have hq1 : quad_finite (fun _ => (0 : ℚ)) 0 (-1) 0 DEFAULT_TOL DEFAULT_RTOL
      DEFAULT_SUBINTERVAL_LIMIT ⟨1, QuadProcessError.None, 0⟩ =
      (0, ⟨2, QuadProcessError.None, 0⟩) :=
    quad_finite_zero_fn _ (fun _ => rfl) _ _ _ _ _ _ rfl
      (by norm_num [DEFAULT_SUBINTERVAL_LIMIT]) (by norm_num [DEFAULT_TOL])
  have hq2 : quad_finite (fun x => (0 : ℚ) / x ^ 2) 0 (-1) 0 DEFAULT_TOL
      DEFAULT_RTOL DEFAULT_SUBINTERVAL_LIMIT ⟨2, QuadProcessError.None, 0⟩ =
      (0, ⟨3, QuadProcessError.None, 0⟩) :=
    quad_finite_zero_fn _ (fun x => by simp) _ _ _ _ _ _ rfl
      (by norm_num [DEFAULT_SUBINTERVAL_LIMIT]) (by norm_num [DEFAULT_TOL])
  have hq3 : quad_finite (fun _ => (0 : ℚ)) 0 0 1 DEFAULT_TOL DEFAULT_RTOL
      DEFAULT_SUBINTERVAL_LIMIT ⟨3, QuadProcessError.None, 0⟩ =
      (0, ⟨4, QuadProcessError.None, 0⟩) :=
    quad_finite_zero_fn _ (fun _ => rfl) _ _ _ _ _ _ rfl
      (by norm_num [DEFAULT_SUBINTERVAL_LIMIT]) (by norm_num [DEFAULT_TOL])
  have hq4 : quad_finite (fun x => (0 : ℚ) / x ^ 2) 0 1 0 DEFAULT_TOL
      DEFAULT_RTOL DEFAULT_SUBINTERVAL_LIMIT ⟨4, QuadProcessError.None, 0⟩ =
      (0, ⟨5, QuadProcessError.None, 0⟩) :=
    quad_finite_zero_fn _ (fun x => by simp) _ _ _ _ _ _ rfl
      (by norm_num [DEFAULT_SUBINTERVAL_LIMIT]) (by norm_num [DEFAULT_TOL])
  have hB : quad_infinite (fun _ => (0 : ℚ)) 0 (-1) DEFAULT_TOL DEFAULT_RTOL
      DEFAULT_SUBINTERVAL_LIMIT ⟨1, QuadProcessError.None, 0⟩ =
      (0, ⟨3, QuadProcessError.None, 0⟩) := by
    rw [quad_infinite]
    dsimp only
    rw [if_neg (by decide), if_pos (by norm_num)]
    rw [hq1]
    dsimp only
    rw [hq2]
    norm_num
  have hC : quad_infinite (fun _ => (0 : ℚ)) 0 1 DEFAULT_TOL DEFAULT_RTOL
      DEFAULT_SUBINTERVAL_LIMIT ⟨3, QuadProcessError.None, 0⟩ =
      (0, ⟨5, QuadProcessError.None, 0⟩) := by
    rw [quad_infinite]
    dsimp only
    rw [if_pos rfl, if_pos (by norm_num)]
    rw [hq3]
    dsimp only
    rw [hq4]
    norm_num
  have hdisp : ( Quad.initialize (fun _ => (0 : ℚ)) F64E.posInf
      F64E.posInf).dispatch = some (0, ⟨5, QuadProcessError.None, 0⟩) := by
    rw [Quad.dispatch]
    dsimp only [ Quad.initialize, F64E.is_finite, F64E.is_infinite]
    rw [if_neg (by decide), if_neg (by decide), if_neg (by decide),
      if_pos (by decide)]
    rw [hB]
    dsimp only
    rw [hC]
    norm_num
  refine ⟨⟨rfl, ?_⟩, rfl, rfl⟩
  rw [Quad.run]
  rw [show ( Quad.initialize (fun _ => (0 : ℚ)) F64E.posInf
    F64E.posInf).error_type = QuadError.None from rfl]
  rw [hdisp]

/-- C2 amended: `run` on a fresh configuration rejects with the interval
error exactly when at least one endpoint is a NaN (neither finite nor
infinite); every finite/infinite endpoint combination — a single infinite
endpoint as well as both endpoints infinite — is dispatched to
integration. -/
theorem claim_C2_amended (f : ℚ → ℚ) (a b : F64E) :
    ( Quad.initialize f a b).run = Except.error QuadError.IntervalError ↔
      ((a.is_finite || a.is_infinite) = false ∨
        (b.is_finite || b.is_infinite) = false) := by
  cases a <;> cases b <;>
    first
      | exact iff_of_true rfl (by simp [F64E.is_finite, F64E.is_infinite])
      | exact iff_of_false (Quad.run_ne_interval _ _ rfl rfl)
          (by simp [F64E.is_finite, F64E.is_infinite])

/-- Evaluation of a full run with subinterval limit `3` for the constant
integrand `1` on `[0, 4]`: the root call recurses, its left child trips
the limit (counter `3`), and the already-scheduled right sibling still
increments the counter to `4` before short-circuiting. -/
theorem limit_exhausted_run_eval :
    (⟨fun _ => (1 : ℚ), F64E.finite 0, F64E.finite 4, 3, DEFAULT_TOL,
        DEFAULT_RTOL, QuadError.None⟩ : Quad).dispatch =
      some (20000000000000001 / 5000000000000000,
        ⟨4, QuadProcessError.SubintervalLimitExceededError, 0⟩) := by
  have hL : quad_finite (fun _ => (1 : ℚ))
      (20000000000000001 / 10000000000000000) 0 2 (DEFAULT_TOL / 2)
      DEFAULT_RTOL 3 ⟨2, QuadProcessError.None, 0⟩ =
      (20000000000000001 / 10000000000000000,
        ⟨3, QuadProcessError.SubintervalLimitExceededError, 0⟩) := by
    rw [quad_finite_limit (fun _ => (1 : ℚ))
      (20000000000000001 / 10000000000000000) 0 2 (DEFAULT_TOL / 2)
      DEFAULT_RTOL 3 ⟨2, QuadProcessError.None, 0⟩ rfl (by norm_num)]
    rw [gaussFive_const, gaussFive_const]
    norm_num
  have hR : quad_finite (fun _ => (1 : ℚ))
      (20000000000000001 / 10000000000000000) 2 4 (DEFAULT_TOL / 2)
      DEFAULT_RTOL 3 ⟨3, QuadProcessError.SubintervalLimitExceededError, 0⟩ =
      (20000000000000001 / 10000000000000000,
        ⟨4, QuadProcessError.SubintervalLimitExceededError, 0⟩) := by
    rw [quad_finite_flagged (fun _ => (1 : ℚ))
      (20000000000000001 / 10000000000000000) 2 4 (DEFAULT_TOL / 2)
      DEFAULT_RTOL 3 ⟨3, QuadProcessError.SubintervalLimitExceededError, 0⟩
      (by decide)]
    rw [gaussFive_const, gaussFive_const]
    norm_num
  have hroot : quad_finite (fun _ => (1 : ℚ)) 0 0 4 DEFAULT_TOL DEFAULT_RTOL 3
      ⟨1, QuadProcessError.None, 0⟩ =
      (20000000000000001 / 5000000000000000,
        ⟨4, QuadProcessError.SubintervalLimitExceededError, 0⟩) := by
    rw [quad_finite_recurse (fun _ => (1 : ℚ)) 0 0 4 DEFAULT_TOL DEFAULT_RTOL 3
      ⟨1, QuadProcessError.None, 0⟩ rfl (by norm_num)
      (by rw [gaussFive_const, gaussFive_const]
          norm_num [DEFAULT_TOL]
          rw [abs_of_pos (by norm_num)]
          norm_num)
      (by rw [gaussFive_const, gaussFive_const]
          norm_num
          rw [abs_of_pos (by norm_num)]
          norm_num)]
    dsimp only
    norm_num [gaussFive_const]
    rw [hL]
    dsimp only
    rw [hR]
    norm_num
  rw [Quad.dispatch]
  dsimp only [F64E.is_finite, F64E.toRat]
  rw [if_pos (show (true && true) = true from rfl)]
  rw [hroot]

/-- C3 counterexample: with the subinterval limit set to `3` on the
constant integrand `1` over `[0, 4]`, `run` does return the
tolerance-unmet error, but the reported subinterval count is `4`, not the
configured limit `3`. -/
theorem claim_C3_counterexample :
    (⟨fun _ => (1 : ℚ), F64E.finite 0, F64E.finite 4, 3, DEFAULT_TOL,
        DEFAULT_RTOL, QuadError.None⟩ : Quad).run =
      Except.error (QuadError.UnacceptableTolearanceError
        ⟨"Unacceptable Tolerance due to meating subintervals number limit\n",
          4, 0, 20000000000000001 / 5000000000000000⟩) ∧
    (⟨fun _ => (1 : ℚ), F64E.finite 0, F64E.finite 4, 3, DEFAULT_TOL,
        DEFAULT_RTOL, QuadError.None⟩ : Quad).limit_subintevals = 3 ∧
    (4 : ℕ) ≠ 3 := by
  refine ⟨?_, rfl, by norm_num⟩
  rw [Quad.run]
  rw [show (⟨fun _ => (1 : ℚ), F64E.finite 0, F64E.finite 4, 3, DEFAULT_TOL,
    DEFAULT_RTOL, QuadError.None⟩ : Quad).error_type = QuadError.None from rfl]
  rw [limit_exhausted_run_eval]

/-- C3 amended: when the dispatch comes back with the limit-exceeded
status, `run` returns the tolerance-unmet error carrying the partial
result record, and the subinterval count reported in that record is at
least the configured limit (it can exceed it: the counter starts at `1`
and already-scheduled sibling calls still increment it after the flag is
set). -/
theorem claim_C3_amended (q : Quad) (sol : ℚ) (st : QState)
    (h0 : q.error_type = QuadError.None)
    (hd : q.dispatch = some (sol, st))
    (hc : st.error = QuadProcessError.SubintervalLimitExceededError) :
    q.run = Except.error (QuadError.UnacceptableTolearanceError
        ⟨"Unacceptable Tolerance due to meating subintervals number limit\n",
          st.iter, st.error_estimate, sol⟩) ∧
      q.limit_subintevals ≤ st.iter := by
  constructor
  · rw [Quad.run, h0, hd]
    dsimp only
    rw [hc]
  · exact Quad.dispatch_limitflag q sol st hd hc

/-- C3 witness: the amended claim at the concrete limit-3 configuration. -/
theorem claim_C3_witness :
    (⟨fun _ => (1 : ℚ), F64E.finite 0, F64E.finite 4, 3, DEFAULT_TOL,
        DEFAULT_RTOL, QuadError.None⟩ : Quad).run =
      Except.error (QuadError.UnacceptableTolearanceError
        ⟨"Unacceptable Tolerance due to meating subintervals number limit\n",
          4, 0, 20000000000000001 / 5000000000000000⟩) ∧
    (⟨fun _ => (1 : ℚ), F64E.finite 0, F64E.finite 4, 3, DEFAULT_TOL,
        DEFAULT_RTOL, QuadError.None⟩ : Quad).limit_subintevals ≤ 4 := by
  exact claim_C3_amended
    (⟨fun _ => (1 : ℚ), F64E.finite 0, F64E.finite 4, 3, DEFAULT_TOL,
      DEFAULT_RTOL, QuadError.None⟩ : Quad)
    (20000000000000001 / 5000000000000000)
    ⟨4, QuadProcessError.SubintervalLimitExceededError, 0⟩
    rfl limit_exhausted_run_eval rfl



/-- `run` only looks at the recorded error and the dispatch result. -/
theorem Quad.run_congr (q₁ q₂ : Quad) (he : q₁.error_type = q₂.error_type)
    (hd : q₁.dispatch = q₂.dispatch) : q₁.run = q₂.run := by
  rw [Quad.run, Quad.run, he, hd]

/-- C5: the infinite-interval strategy.  For a positive-infinite tail the
transformed integrand is `u ↦ f(1/u)/u²`; with the finite endpoint
strictly inside the unit interval (`a < 1`) the result combines a finite
piece over `[a, 1]` with a transformed piece over the (reversed) unit
interval, otherwise the whole tail folds into one finite integral of the
transformed integrand over `[0, 1/a]`; the negative-infinite tail is
mirrored (`a > -1`, piece over `[-1, a]`); and with both endpoints
infinite the dispatch sums the negative-tail and positive-tail
computations anchored at `0`. -/
theorem claim_C5_reciprocal_transform :
    (∀ (f : ℚ → ℚ) (a tolerance rtolerance : ℚ) (limit_iter : ℕ)
      (st : QState),
      quad_infinite f a 1 tolerance rtolerance limit_iter st =
        if a < 1 then
          (let p1 := quad_finite f 0 a 1 tolerance rtolerance limit_iter st
          let p2 := quad_finite (fun u => f (1 / u) / u ^ 2) 0 1 0 tolerance
            rtolerance limit_iter p1.2
          (p1.1 - p2.1, p2.2))
        else
          quad_finite (fun u => f (1 / u) / u ^ 2) 0 0 (1 / a) tolerance
            rtolerance limit_iter st) ∧
    (∀ (f : ℚ → ℚ) (a tolerance rtolerance : ℚ) (limit_iter : ℕ)
      (st : QState),
      quad_infinite f a (-1) tolerance rtolerance limit_iter st =
        if -1 < a then
          (let p1 := quad_finite f 0 (-1) a tolerance rtolerance limit_iter st
          let p2 := quad_finite (fun u => f (1 / u) / u ^ 2) 0 (-1) 0 tolerance
            rtolerance limit_iter p1.2
          (p1.1 + p2.1, p2.2))
        else
          quad_finite (fun u => f (1 / u) / u ^ 2) 0 0 (1 / a) tolerance
            rtolerance limit_iter st) ∧
    (∀ (q : Quad), q.a.is_infinite = true → q.b.is_infinite = true →
      q.dispatch = some
        (let p1 := quad_infinite q.f 0 (-1) q.tolerance q.relative_tolerance
          q.limit_subintevals ⟨1, QuadProcessError.None, 0⟩
        let p2 := quad_infinite q.f 0 1 q.tolerance q.relative_tolerance
          q.limit_subintevals p1.2
        (p1.1 + p2.1, p2.2))) := by
  refine ⟨fun f a tolerance rtolerance limit_iter st => rfl,
    fun f a tolerance rtolerance limit_iter st => rfl,
    fun q h1 h2 => ?_⟩
  have ha := F64E.is_finite_eq_false q.a h1
  have hb := F64E.is_finite_eq_false q.b h2
  rw [Quad.dispatch]
  dsimp only
  rw [ha, hb, h1, h2]
  rw [if_neg (by decide), if_neg (by decide), if_neg (by decide),
    if_pos (show (true && true) = true from rfl)]

/-- C5 witness: the bi-infinite dispatch at a concrete configuration. -/
theorem claim_C5_witness :
    F64E.posInf.is_infinite = true ∧ F64E.negInf.is_infinite = true ∧
    ( Quad.initialize (fun _ => (0 : ℚ)) F64E.posInf F64E.negInf).dispatch =
      some
        (let p1 := quad_infinite (fun _ => (0 : ℚ)) 0 (-1) DEFAULT_TOL
          DEFAULT_RTOL DEFAULT_SUBINTERVAL_LIMIT ⟨1, QuadProcessError.None, 0⟩
        let p2 := quad_infinite (fun _ => (0 : ℚ)) 0 1 DEFAULT_TOL
          DEFAULT_RTOL DEFAULT_SUBINTERVAL_LIMIT p1.2
        (p1.1 + p2.1, p2.2)) :=
  ⟨rfl, rfl, claim_C5_reciprocal_transform.2.2
    ( Quad.initialize (fun _ => (0 : ℚ)) F64E.posInf F64E.negInf) rfl rfl⟩

/-- C10: the relative tolerance has no effect on the adaptive
computation.  For any two stored relative tolerances at or above the
validation floor, `run` produces identical results (value, subinterval
count, error estimate, and error outcome alike), because `quad_finite`
receives its `rtolerance` parameter but never reads it. -/
theorem claim_C10_relative_tolerance_no_effect (q : Quad) (r₁ r₂ : ℚ)
    (h₁ : LIMIT_TOL ≤ r₁) (h₂ : LIMIT_TOL ≤ r₂) :
    (q.change_relative_tolerance r₁).run =
        (q.change_relative_tolerance r₂).run ∧
      ∀ (f : ℚ → ℚ) (approx a b tolerance : ℚ) (limit_iter : ℕ)
        (st : QState),
        quad_finite f approx a b tolerance r₁ limit_iter st =
        quad_finite f approx a b tolerance r₂ limit_iter st := by
  constructor
  · have e₁ : q.change_relative_tolerance r₁ =
        { q with relative_tolerance := r₁ } := by
      rw [Quad.change_relative_tolerance]
      rw [if_neg (not_lt.mpr h₁)]
    have e₂ : q.change_relative_tolerance r₂ =
        { q with relative_tolerance := r₂ } := by
      rw [Quad.change_relative_tolerance]
      rw [if_neg (not_lt.mpr h₂)]
    rw [e₁, e₂]
    exact Quad.run_congr _ _ rfl (Quad.dispatch_rtol q r₁ r₂)
  · exact fun f approx a b tolerance limit_iter st =>
      quad_finite_rtol f approx a b tolerance r₁ r₂ limit_iter st

/-- C10 witness at a concrete configuration and floors `1`, `2`. -/
theorem claim_C10_witness :
    LIMIT_TOL ≤ (1 : ℚ) ∧ LIMIT_TOL ≤ (2 : ℚ) ∧
    (( Quad.initialize (fun _ => (0 : ℚ)) (F64E.finite 0)
        (F64E.finite 1)).change_relative_tolerance 1).run =
      (( Quad.initialize (fun _ => (0 : ℚ)) (F64E.finite 0)
        (F64E.finite 1)).change_relative_tolerance 2).run := by
  have h₁ : LIMIT_TOL ≤ (1 : ℚ) := by norm_num [LIMIT_TOL, EPSILON]
  have h₂ : LIMIT_TOL ≤ (2 : ℚ) := by norm_num [LIMIT_TOL, EPSILON]
  exact ⟨h₁, h₂, (claim_C10_relative_tolerance_no_effect
    ( Quad.initialize (fun _ => (0 : ℚ)) (F64E.finite 0) (F64E.finite 1))
    1 2 h₁ h₂).1⟩

end Numix
